import Mathlib

/-!
Weather CLI assistant (`src/index.js`)

A shallow embedding of the three functions of `src/index.js`
(`getWeather`, `processUserInput`, `askQuestion`) together with the part of the
JavaScript runtime they observe: property reads, template-literal conversion,
truthiness, `encodeURIComponent`, `JSON.stringify` and `try`/`catch`.

Modelling conventions.

* Every effect (console output, HTTP request, chat-completion request, readline
  prompt) is an `Event`; a function returns the list of events it performed, in
  order, together with its completion (a value, or the error it threw).
* The outside world is an `Env`: the weather API key, the answer of `fetch` to a
  URL, the answer of the chat endpoint to a request, and `JSON.parse`.
  A rejected promise carries an `Error` object, of which only `message` is read.
* Strings are sequences of Unicode scalar values, so a lone UTF-16 surrogate
  (on which `encodeURIComponent` throws) cannot occur.
* String literals are transcribed code point by code point from the source
  file, which holds U+00C2 U+00B0 where a degree sign is meant, and similar
  sequences where emoji are meant.
-/

namespace WeatherAgent

/-! ## JavaScript values -/

/-- JSON-shaped JavaScript value. A number is held as its decimal rendering
(`Number::toString`, e.g. `18`, `18.5`, `1e+21`, `NaN`), the only thing the program
observes of a number. An object lists its own properties in enumeration order, with
distinct keys. -/
inductive JSVal where
  | undefined
  | null
  | bool (b : Bool)
  | num (text : String)
  | str (s : String)
  | arr (items : List JSVal)
  | obj (props : List (String × JSVal))

/-- Error object, as thrown by the program, by the engine or by a rejected promise. -/
structure JSError where
  message : String

/-- Outcome of an awaited promise. -/
inductive Settled (α : Type) where
  | resolve (value : α)
  | reject (reason : JSError)

/-- ToBoolean. -/
def truthy : JSVal → Bool
  | .undefined => false
  | .null => false
  | .bool b => b
  | .num text => !(text == "0" || text == "NaN")
  | .str s => !(s == "")
  | .arr _ => true
  | .obj _ => true

/-- Strict equality `v === 'literal'` against a string literal. -/
def strictEqString : JSVal → String → Bool
  | .str s, literal => s == literal
  | _, _ => false

/-- Default for a parameter or a destructured property: used when the value is `undefined`. -/
def withDefault : JSVal → JSVal → JSVal
  | .undefined, fallback => fallback
  | v, _ => v

/-- Own property of an object; `undefined` when absent. -/
def lookupProp : List (String × JSVal) → String → JSVal
  | [], _ => .undefined
  | (k, v) :: rest, key => if k = key then v else lookupProp rest key

/-- Message of the TypeError V8 throws on a property read from `undefined` or `null`. -/
def cannotRead (base key : String) : String :=
  "Cannot read properties of " ++ base ++ " (reading '" ++ key ++ "')"

/-- Number of UTF-16 code units of a string. -/
def utf16Length (s : String) : Nat :=
  (s.data.map (fun c => if c.toNat < 65536 then 1 else 2)).sum

/-- Property read `base.key` for a named key. None of the names the program reads is
inherited from a prototype, so only own properties are modelled. -/
def getProp (base : JSVal) (key : String) : Except JSError JSVal :=
  match base with
  | .undefined => .error ⟨cannotRead "undefined" key⟩
  | .null => .error ⟨cannotRead "null" key⟩
  | .obj props => .ok (lookupProp props key)
  | .arr items => .ok (if key = "length" then .num (toString items.length) else .undefined)
  | .str s => .ok (if key = "length" then .num (toString (utf16Length s)) else .undefined)
  | _ => .ok .undefined

/-- Indexed read `base[i]`. On a string the result is the character at `i` (exact for
characters of the basic plane). -/
def getIndex (base : JSVal) (i : Nat) : Except JSError JSVal :=
  match base with
  | .undefined => .error ⟨cannotRead "undefined" (toString i)⟩
  | .null => .error ⟨cannotRead "null" (toString i)⟩
  | .obj props => .ok (lookupProp props (toString i))
  | .arr items => .ok (items.getD i .undefined)
  | .str s => .ok (match s.data.get? i with
      | some c => .str (String.singleton c)
      | none => .undefined)
  | _ => .ok .undefined

mutual
/-- ToString, as applied by a template literal; `none` stands for the TypeError
thrown when an object shadows `toString` with a value that cannot be called (the only
way for JSON data to fail the conversion). -/
def toStr : JSVal → Option String
  | .undefined => some "undefined"
  | .null => some "null"
  | .bool b => some (if b then "true" else "false")
  | .num text => some text
  | .str s => some s
  | .arr items => (joinParts items).map (String.intercalate ",")
  | .obj props =>
    if props.any (fun p => p.1 == "toString") then none else some "[object Object]"
termination_by structural v => v
/-- Renderings of the elements of an array for `Array.prototype.join`:
`undefined` and `null` render as the empty string. -/
def joinParts : List JSVal → Option (List String)
  | [] => some []
  | x :: rest =>
    match (match x with
      | .undefined => some ""
      | .null => some ""
      | v => toStr v) with
    | none => none
    | some a =>
      match joinParts rest with
      | none => none
      | some more => some (a :: more)
termination_by structural items => items
end

/-- Substitution `${v}` of a template literal. -/
def template (v : JSVal) : Except JSError String :=
  match toStr v with
  | some s => .ok s
  | none => .error ⟨"Cannot convert object to primitive value"⟩

/-! ## `encodeURIComponent` -/

/-- Upper-case hexadecimal digit. -/
def hexUpper (n : Nat) : Char :=
  if n < 10 then Char.ofNat (48 + n) else Char.ofNat (55 + n)

/-- Lower-case hexadecimal digit. -/
def hexLower (n : Nat) : Char :=
  if n < 10 then Char.ofNat (48 + n) else Char.ofNat (87 + n)

/-- UTF-8 encoding of a code point. -/
def utf8Bytes (n : Nat) : List Nat :=
  if n < 128 then [n]
  else if n < 2048 then [192 + n / 64, 128 + n % 64]
  else if n < 65536 then [224 + n / 4096, 128 + n / 64 % 64, 128 + n % 64]
  else [240 + n / 262144, 128 + n / 4096 % 64, 128 + n / 64 % 64, 128 + n % 64]

/-- Characters `encodeURIComponent` leaves alone: ASCII letters, digits and `-_.!~*'()`. -/
def uriUnreserved (c : Char) : Bool :=
  c.isAlphanum || [45, 95, 46, 33, 126, 42, 39, 40, 41].contains c.toNat

/-- Percent-encoding of one character. -/
def encodeChar (c : Char) : List Char :=
  if uriUnreserved c then [c]
  else ((utf8Bytes c.toNat).map (fun b => ['%', hexUpper (b / 16), hexUpper (b % 16)])).flatten

/-- Percent-encoding of a string. -/
def percentEncode (s : String) : String :=
  String.mk (s.data.map encodeChar).flatten

/-- The call `encodeURIComponent(v)`: ToString, then percent-encoding. -/
def encodeURIComponent (v : JSVal) : Except JSError String :=
  match template v with
  | .ok s => .ok (percentEncode s)
  | .error e => .error e

/-! ## `JSON.stringify` -/

/-- Escape of one character inside a JSON string. -/
def jsonEscapeChar (c : Char) : List Char :=
  let n := c.toNat
  if n = 34 then [Char.ofNat 92, Char.ofNat 34]
  else if n = 92 then [Char.ofNat 92, Char.ofNat 92]
  else if n = 8 then [Char.ofNat 92, 'b']
  else if n = 12 then [Char.ofNat 92, 'f']
  else if n = 10 then [Char.ofNat 92, 'n']
  else if n = 13 then [Char.ofNat 92, 'r']
  else if n = 9 then [Char.ofNat 92, 't']
  else if n < 32 then [Char.ofNat 92, 'u', '0', '0', hexLower (n / 16), hexLower (n % 16)]
  else [c]

/-- JSON string literal for a string. -/
def jsonQuote (s : String) : String :=
  String.mk ([Char.ofNat 34] ++ (s.data.map jsonEscapeChar).flatten ++ [Char.ofNat 34])

namespace JSON

mutual
/-- The call `JSON.stringify(v)`; `none` is `undefined`. -/
def stringify : JSVal → Option String
  | .undefined => none
  | .null => some "null"
  | .bool b => some (if b then "true" else "false")
  | .num text =>
    some (if text = "Infinity" ∨ text = "-Infinity" ∨ text = "NaN" then "null" else text)
  | .str s => some (jsonQuote s)
  | .arr items => some ("[" ++ String.intercalate "," (stringifyItems items) ++ "]")
  | .obj props => some ("\x7b" ++ String.intercalate "," (stringifyProps props) ++ "\x7d")
termination_by structural v => v
/-- Elements of an array: `undefined` is written `null`. -/
def stringifyItems : List JSVal → List String
  | [] => []
  | x :: rest => (stringify x).getD "null" :: stringifyItems rest
termination_by structural items => items
/-- Properties of an object: those whose value is `undefined` are left out. -/
def stringifyProps : List (String × JSVal) → List String
  | [] => []
  | (k, v) :: rest =>
    match stringify v with
    | none => stringifyProps rest
    | some s => (jsonQuote k ++ ":" ++ s) :: stringifyProps rest
termination_by structural props => props
end

end JSON

/-! ## Chat-completion data, as the OpenAI client types it -/

/-- Function part of a tool call: the name and the JSON text of the arguments. -/
structure FunctionCall where
  name : String
  arguments : String

/-- Tool call requested by the model. -/
structure ToolCall where
  id : String
  function : FunctionCall

/-- Assistant message of a response; `tool_calls` may be absent. -/
structure Message where
  role : String
  content : JSVal
  tool_calls : Option (List ToolCall)

/-- Element of the `messages` array of a request. -/
inductive ChatMessage where
  | text (role : String) (content : String)
  | assistant (message : Message)
  | tool (tool_call_id : String) (content : Option String)

/-- Argument of `openai.chat.completions.create`; `tools` and `tool_choice` may be absent. -/
structure ChatRequest where
  model : String
  messages : List ChatMessage
  tools : Option JSVal
  tool_choice : Option String

/-- One choice of a response. -/
structure Choice where
  message : Message

/-- Response of the chat endpoint. -/
structure ChatCompletion where
  choices : List Choice

/-- Response of `fetch`; `json` is the outcome of `response.json()`. -/
structure Response where
  ok : Bool
  statusText : String
  json : Settled JSVal

/-- The outside world of one run. -/
structure Env where
  WEATHER_API_KEY : Option String
  fetch : String → Settled Response
  chat : ChatRequest → Settled ChatCompletion
  jsonParse : String → Except JSError JSVal

/-! ## Effects -/

/-- Chalk colour of a printed line. -/
inductive Chalk where
  | red | green | blue | cyan | yellow | magenta | white | gray

/-- Observable effect. -/
inductive Event where
  | log (colour : Chalk) (text : String)
  | logError (colour : Chalk) (text : String)
  | logValue (value : JSVal)
  | logMessage (message : Message)
  | logToolData (weatherData : JSVal) (toolCall : ToolCall)
  | fetch (url : String)
  | chat (request : ChatRequest)
  | question (prompt : String)
  | close

/-- Is the event a request to the chat endpoint? -/
def Event.isChat : Event → Bool
  | .chat _ => true
  | _ => false

/-- Is the event a request to the weather endpoint? -/
def Event.isFetch : Event → Bool
  | .fetch _ => true
  | _ => false

/-- A computation: the events performed, then a value or the error thrown. -/
abbrev Run (α : Type) := List Event × Except JSError α

/-- Completion with a value, no effect. -/
def Run.pure {α : Type} (a : α) : Run α := ([], .ok a)

/-- Sequencing: a thrown error skips the rest. -/
def Run.bind {α β : Type} (m : Run α) (f : α → Run β) : Run β :=
  match m with
  | (events, .error e) => (events, .error e)
  | (events, .ok a) => (events ++ (f a).1, (f a).2)

instance : Monad Run where
  pure := Run.pure
  bind := Run.bind

/-- Perform one effect. -/
def emit (e : Event) : Run Unit := ([e], .ok ())

/-- The statement `throw new Error(message)`. -/
def throwNew {α : Type} (message : String) : Run α := ([], .error ⟨message⟩)

/-- Evaluation of an expression that may throw. -/
def eval {α : Type} (r : Except JSError α) : Run α := ([], r)

/-- The expression `await p` on a settled promise. -/
def await {α : Type} (p : Settled α) : Run α :=
  match p with
  | .resolve value => ([], .ok value)
  | .reject reason => ([], .error reason)

/-- The statement `try { body } catch (error) { handler }`. -/
def tryCatch {α : Type} (body : Run α) (handler : JSError → Run α) : Run α :=
  match body with
  | (events, .error e) => (events ++ (handler e).1, (handler e).2)
  | (events, .ok a) => (events, .ok a)

/-! ## The program -/

/-- The constant `weatherTools`. -/
def weatherTools : JSVal :=
  .arr [.obj [
    ("type", .str "function"),
    ("function", .obj [
      ("name", .str "get_weather"),
      ("description", .str "Get the current weather for a location"),
      ("parameters", .obj [
        ("type", .str "object"),
        ("properties", .obj [
          ("location", .obj [
            ("type", .str "string"),
            ("description",
              .str "The city and state, e.g. San Francisco, CA or Paris, France")]),
          ("unit", .obj [
            ("type", .str "string"),
            ("enum", .arr [.str "celsius", .str "fahrenheit"]),
            ("description", .str "The unit of temperature to return")])]),
        ("required", .arr [.str "location"])])])]]

/-- Unit suffix chosen by `unit === 'celsius' ? forCelsius : otherwise`. -/
def unitChoice (unit : JSVal) (forCelsius otherwise : String) : String :=
  if strictEqString unit "celsius" then forCelsius else otherwise

/-- The URL template of line 56, given the encoded location. -/
def weatherUrl (q apiKey : String) (unit : JSVal) : String :=
  "https://api.openweathermap.org/data/2.5/weather?q=" ++ q ++ "&appid=" ++ apiKey
    ++ "&units=" ++ unitChoice unit "metric" "imperial"

/-- The object literal returned on lines 65 to 72, its properties evaluated in order. -/
def weatherRecord (data unit : JSVal) : Except JSError JSVal := do
  let name ← getProp data "name"
  let nameText ← template name
  let sys ← getProp data "sys"
  let country ← getProp sys "country"
  let countryText ← template country
  let main ← getProp data "main"
  let temp ← getProp main "temp"
  let tempText ← template temp
  let weather ← getProp data "weather"
  let first ← getIndex weather 0
  let description ← getProp first "description"
  let mainAgain ← getProp data "main"
  let feels ← getProp mainAgain "feels_like"
  let feelsText ← template feels
  let mainThird ← getProp data "main"
  let humidity ← getProp mainThird "humidity"
  let humidityText ← template humidity
  let wind ← getProp data "wind"
  let speed ← getProp wind "speed"
  let speedText ← template speed
  pure (JSVal.obj [
    ("location", .str (nameText ++ ", " ++ countryText)),
    ("temperature", .str (tempText ++ "\u00c2\u00b0" ++ unitChoice unit "C" "F")),
    ("description", description),
    ("feels_like", .str (feelsText ++ "\u00c2\u00b0" ++ unitChoice unit "C" "F")),
    ("humidity", .str (humidityText ++ "%")),
    ("wind_speed", .str (speedText ++ " " ++ unitChoice unit "m/s" "mph"))])

/-- The `try` block of `getWeather`, lines 50 to 72. -/
def getWeatherBody (env : Env) (location unit : JSVal) : Run JSVal :=
  match env.WEATHER_API_KEY with
  | none => throwNew "WEATHER_API_KEY is not set in .env file"
  | some apiKey =>
    if apiKey = "" then
      throwNew "WEATHER_API_KEY is not set in .env file"
    else do
      let q ← eval (encodeURIComponent location)
      emit (.fetch (weatherUrl q apiKey unit))
      let response ← await (env.fetch (weatherUrl q apiKey unit))
      if !response.ok then
        throwNew ("Weather API error: " ++ response.statusText)
      else
        let data ← await response.json
        eval (weatherRecord data unit)

/-- The `catch` block of `getWeather`, lines 74 and 75. -/
def getWeatherCatch (error : JSError) : Run JSVal := do
  emit (.logError .red ("Error fetching weather data: " ++ error.message))
  pure (JSVal.obj [("error", .str error.message)])

/-- The function `getWeather(location, unit = 'celsius')`. -/
def getWeather (env : Env) (location : JSVal) (unit : JSVal) : Run JSVal :=
  tryCatch (getWeatherBody env location (withDefault unit (.str "celsius"))) getWeatherCatch

/-- The read `response.choices[0].message`. -/
def firstMessage (response : ChatCompletion) : Except JSError Message :=
  match response.choices with
  | [] => .error ⟨cannotRead "undefined" "message"⟩
  | choice :: _ => .ok choice.message

/-- The statement `const { location, unit = 'celsius' } = args`. -/
def destructureArgs (args : JSVal) : Except JSError (JSVal × JSVal) :=
  match args with
  | .undefined =>
    .error ⟨"Cannot destructure property 'location' of 'args' as it is undefined."⟩
  | .null => .error ⟨"Cannot destructure property 'location' of 'args' as it is null."⟩
  | .obj props =>
    .ok (lookupProp props "location", withDefault (lookupProp props "unit") (.str "celsius"))
  | _ => .ok (.undefined, .str "celsius")

/-- First chat request of a turn. -/
def firstRequest (input : String) : ChatRequest :=
  { model := "Proton"
    messages := [
      .text "system" ("You are a helpful AI assistant. You can use the get_weather function "
        ++ "to provide accurate weather information."),
      .text "user" input]
    tools := some weatherTools
    tool_choice := some "auto" }

/-- Second chat request of a turn, carrying the result of the lookup. -/
def secondRequest (input : String) (message : Message) (toolCall : ToolCall)
    (weatherData : JSVal) : ChatRequest :=
  { model := "Proton"
    messages := [
      .text "system" ("You are a helpful weather assistant. Provide weather information "
        ++ "in a friendly, concise way."),
      .text "user" input,
      .assistant message,
      .tool toolCall.id (JSON.stringify weatherData)]
    tools := none
    tool_choice := none }

/-- Lines 134 to 143: the formatted weather block and the interpretation of the model. -/
def printWeather (weatherData : JSVal) (secondResponse : ChatCompletion) : Run Unit := do
  emit (.log .green "\n\u00f0\u0178\u0152\u00a4\u00ef\u00b8  Weather Information:")
  let location ← eval (getProp weatherData "location")
  let locationText ← eval (template location)
  emit (.log .cyan ("\u00f0\u0178\u201c Location: " ++ locationText))
  let temperature ← eval (getProp weatherData "temperature")
  let temperatureText ← eval (template temperature)
  emit (.log .yellow ("\u00f0\u0178\u0152\u00a1\u00ef\u00b8  Temperature: " ++ temperatureText))
  let feels ← eval (getProp weatherData "feels_like")
  let feelsText ← eval (template feels)
  emit (.log .blue ("\u00f0\u0178\u00a4\u201d Feels like: " ++ feelsText))
  let humidity ← eval (getProp weatherData "humidity")
  let humidityText ← eval (template humidity)
  emit (.log .magenta ("\u00f0\u0178\u2019\u00a7 Humidity: " ++ humidityText))
  let wind ← eval (getProp weatherData "wind_speed")
  let windText ← eval (template wind)
  emit (.log .white ("\u00f0\u0178\u2019\u00a8 Wind: " ++ windText))
  let description ← eval (getProp weatherData "description")
  let descriptionText ← eval (template description)
  emit (.log .gray ("\u00f0\u0178\u201d Description: " ++ descriptionText ++ "\n"))
  emit (.log .green "AI Interpretation:")
  let reply ← eval (firstMessage secondResponse)
  emit (.logValue reply.content)

/-- Lines 111 to 143: what follows the lookup, given the record it returned. -/
def reportWeather (env : Env) (input : String) (message : Message) (toolCall : ToolCall)
    (weatherData : JSVal) : Run Unit := do
  let error ← eval (getProp weatherData "error")
  if truthy error then
    let errorText ← eval (template error)
    emit (.log .red ("Error: " ++ errorText))
  else
    emit (.logToolData weatherData toolCall)
    emit (.chat (secondRequest input message toolCall weatherData))
    let secondResponse ← await (env.chat (secondRequest input message toolCall weatherData))
    printWeather weatherData secondResponse

/-- Lines 104 to 143: the branch taken when the first tool call names `get_weather`. -/
def weatherBranch (env : Env) (input : String) (message : Message) (toolCall : ToolCall) :
    Run Unit := do
  let args ← eval (env.jsonParse toolCall.function.arguments)
  let (location, unit) ← eval (destructureArgs args)
  let locationText ← eval (template location)
  emit (.log .blue ("Fetching weather for " ++ locationText ++ "..."))
  let weatherData ← getWeather env location unit
  reportWeather env input message toolCall weatherData

/-- The `try` block of `processUserInput`, lines 84 to 149. -/
def processBody (env : Env) (input : String) : Run Unit := do
  emit (.chat (firstRequest input))
  let response ← await (env.chat (firstRequest input))
  let message ← eval (firstMessage response)
  emit (.logMessage message)
  match message.tool_calls with
  | some (toolCall :: _) =>
    if toolCall.function.name = "get_weather" then
      weatherBranch env input message toolCall
    else
      pure ()
  | _ =>
    emit (.log .green "\nAssistant:")
    emit (.logValue message.content)

/-- The `catch` block of `processUserInput`, line 151. -/
def processCatch (error : JSError) : Run Unit :=
  emit (.logError .red ("Error: " ++ error.message))

/-- The function `processUserInput(input)`. -/
def processUserInput (env : Env) (input : String) : Run Unit := do
  emit (.log .blue "Thinking...")
  tryCatch (processBody env input) processCatch

/-- The call `query.toLowerCase()`. ASCII letters are lowered; other characters are kept
(their Unicode mapping is not modelled: none of them lowers to one of the letters of
`exit`, so the comparison with that word is exact). -/
def toLowerCase (s : String) : String :=
  String.mk (s.data.map Char.toLower)

/-- Prompt of `rl.question`. -/
def questionPrompt : String := "Ask about weather (or type \"exit\" to quit): "

/-- The function `askQuestion()`, run on the lines the user will enter: each call asks
one question; its callback either closes the interface or awaits the turn and calls
`askQuestion` again. A turn that threw would leave the callback before that call. -/
def askQuestion (env : Env) : List String → List Event
  | [] => [.question questionPrompt]
  | query :: rest =>
    .question questionPrompt ::
      (if toLowerCase query = "exit" then
        [.log .yellow "\nGoodbye! \u00f0\u0178\u2018\u2039\n", .close]
      else
        match processUserInput env query with
        | (events, .ok _) => events ++ askQuestion env rest
        | (events, .error _) => events)

/-! ## Vocabulary of the properties -/

/-- Is the value `undefined` or `null`? -/
def nullish : JSVal → Bool
  | .undefined => true
  | .null => true
  | _ => false

/-- Value of a read, with `undefined` standing for a read that throws. -/
def readOr (r : Except JSError JSVal) : JSVal :=
  match r with
  | .ok v => v
  | .error _ => .undefined

/-- A body lacks a field the program dereferences: `sys`, `main`, `weather`, `weather[0]`
or `wind` is `undefined` or `null` (as all of them are when the body itself is). -/
def lacksField (data : JSVal) : Bool :=
  nullish (readOr (getProp data "sys")) || nullish (readOr (getProp data "main"))
    || nullish (readOr (getProp data "weather"))
    || nullish (readOr (getIndex (readOr (getProp data "weather")) 0))
    || nullish (readOr (getProp data "wind"))

/-- The failure paths of a lookup: the API key is missing, `fetch` rejects, the status
is not ok, `response.json()` rejects, or the body lacks a dereferenced field. -/
def failurePath (env : Env) (location unit : JSVal) : Prop :=
  env.WEATHER_API_KEY = none ∨ env.WEATHER_API_KEY = some "" ∨
    ∃ apiKey q, env.WEATHER_API_KEY = some apiKey ∧ encodeURIComponent location = .ok q ∧
      ((∃ e, env.fetch (weatherUrl q apiKey (withDefault unit (.str "celsius"))) = .reject e) ∨
        ∃ response,
          env.fetch (weatherUrl q apiKey (withDefault unit (.str "celsius")))
            = .resolve response ∧
          (response.ok = false ∨ (∃ e, response.json = .reject e) ∨
            ∃ data, response.json = .resolve data ∧ lacksField data = true))

/-- An evaluation whose thrown errors all carry a non-empty message. -/
def Worded {α : Type} (r : Except JSError α) : Prop :=
  ∀ e, r = .error e → e.message ≠ ""

/-- The rejections this lookup can meet carry a message: if its request to the weather
endpoint rejects, or the `response.json()` of the answer to that request rejects, the
message of the error is not empty (as with every error a real `fetch` produces). -/
def rejectionsWorded (env : Env) (location unit : JSVal) : Prop :=
  ∀ apiKey q, env.WEATHER_API_KEY = some apiKey → encodeURIComponent location = .ok q →
    (∀ e, env.fetch (weatherUrl q apiKey (withDefault unit (.str "celsius"))) = .reject e →
      e.message ≠ "") ∧
    (∀ response e,
      env.fetch (weatherUrl q apiKey (withDefault unit (.str "celsius")))
        = .resolve response →
      response.json = .reject e → e.message ≠ "")

/-- The lookup is answered: the key is set, the location converts to a query, and the
weather endpoint, requested at `url` for that query, answers ok with a body from which
the record `w` is built. -/
def lookupAnswered (env : Env) (location unit : JSVal) (url : String) (w : JSVal) : Prop :=
  ∃ apiKey q response data,
    env.WEATHER_API_KEY = some apiKey ∧ apiKey ≠ "" ∧
    encodeURIComponent location = .ok q ∧
    url = weatherUrl q apiKey (withDefault unit (.str "celsius")) ∧
    env.fetch url = .resolve response ∧ response.ok = true ∧
    response.json = .resolve data ∧
    weatherRecord data (withDefault unit (.str "celsius")) = .ok w

/-- A success record: the six fields, in the order of the object literal, the five
rendered ones holding strings. -/
def isSuccessRecord (w : JSVal) : Prop :=
  ∃ location temperature feels humidity wind description,
    w = .obj [
      ("location", .str location),
      ("temperature", .str temperature),
      ("description", description),
      ("feels_like", .str feels),
      ("humidity", .str humidity),
      ("wind_speed", .str wind)]

/-- The first response of a turn asks for `get_weather`, and its arguments parse and
destructure into `location` and `unit`. -/
def requestsLookup (env : Env) (input : String) (message : Message) (toolCall : ToolCall)
    (location unit : JSVal) : Prop :=
  ∃ response others more args,
    env.chat (firstRequest input) = .resolve response ∧
    response.choices = ⟨message⟩ :: others ∧
    message.tool_calls = some (toolCall :: more) ∧
    toolCall.function.name = "get_weather" ∧
    env.jsonParse toolCall.function.arguments = .ok args ∧
    destructureArgs args = .ok (location, unit)

/-- Every event of a computation satisfies `p`. -/
def Only {α : Type} (p : Event → Bool) (m : Run α) : Prop :=
  ∀ e ∈ m.1, p e = true

/-- Is the event a line printed by `console.log` through chalk? Every line of the
weather block and both headings are such lines. -/
def Event.isLog : Event → Bool
  | .log _ _ => true
  | _ => false

/-- Is the event a value printed by `console.log`, as the reply of the model is? -/
def Event.isValue : Event → Bool
  | .logValue _ => true
  | _ => false

/-- A location the lookup could be expected to accept: a non-empty string. -/
def usableLocation : JSVal → Bool
  | .str s => !(s == "")
  | _ => false

/-! ## Sample environments -/

/-- Body of the weather endpoint for Tokyo. -/
def tokyoBody : JSVal :=
  .obj [
    ("name", .str "Tokyo"),
    ("sys", .obj [("country", .str "JP")]),
    ("main", .obj [("temp", .num "18"), ("feels_like", .num "17"), ("humidity", .num "60")]),
    ("weather", .arr [.obj [("description", .str "clear sky")]]),
    ("wind", .obj [("speed", .num "3")])]

/-- Tool call asking for the weather in Tokyo. -/
def tokyoCall : ToolCall :=
  { id := "call_1"
    function := { name := "get_weather", arguments := "\x7b\"location\":\"Tokyo\"\x7d" } }

/-- Assistant message carrying one tool call. -/
def callMessage (toolCall : ToolCall) : Message :=
  { role := "assistant", content := .null, tool_calls := some [toolCall] }

/-- Assistant message carrying text only. -/
def textMessage (text : String) : Message :=
  { role := "assistant", content := .str text, tool_calls := none }

/-- The values of `JSON.parse` on the argument texts used below; any other text is
answered with the error V8 reports for the empty text, the one further text used. -/
def sampleParse (text : String) : Except JSError JSVal :=
  if text = "\x7b\"location\":\"Tokyo\"\x7d" then .ok (.obj [("location", .str "Tokyo")])
  else if text = "\x7b\x7d" then .ok (.obj [])
  else .error ⟨"Unexpected end of JSON input"⟩

/-- A chat endpoint that answers a request carrying tools with the message given, and
any other request with a sentence. -/
def sampleChat (first : Message) (request : ChatRequest) : Settled ChatCompletion :=
  match request.tools with
  | some _ => .resolve { choices := [{ message := first }] }
  | none => .resolve { choices := [{ message := textMessage "Clear and mild in Tokyo." }] }

/-- A world where the key is set, the weather endpoint answers for Tokyo and the model
asks for the weather in Tokyo. -/
def tokyoEnv : Env :=
  { WEATHER_API_KEY := some "k"
    fetch := fun _ => .resolve { ok := true, statusText := "OK", json := .resolve tokyoBody }
    chat := sampleChat (callMessage tokyoCall)
    jsonParse := sampleParse }

/-- The Tokyo world with another answer of `fetch`. -/
def fetchEnv (answer : Settled Response) : Env :=
  { tokyoEnv with fetch := fun _ => answer }

/-- The Tokyo world with another first answer of the model. -/
def chatEnv (first : Message) : Env :=
  { tokyoEnv with chat := sampleChat first }

/-- A chat endpoint that answers a request carrying tools with the message given, and
rejects any other request. -/
def rejectingChat (first : Message) (e : JSError) (request : ChatRequest) :
    Settled ChatCompletion :=
  match request.tools with
  | some _ => .resolve { choices := [{ message := first }] }
  | none => .reject e

/-- Tool call with the arguments given as text. -/
def callWith (arguments : String) : ToolCall :=
  { id := "call_2", function := { name := "get_weather", arguments := arguments } }

/-- The record the lookup builds from the Tokyo body for the unit celsius. -/
def tokyoRecord : JSVal :=
  .obj [
    ("location", .str "Tokyo, JP"),
    ("temperature", .str "18\u00c2\u00b0C"),
    ("description", .str "clear sky"),
    ("feels_like", .str "17\u00c2\u00b0C"),
    ("humidity", .str "60%"),
    ("wind_speed", .str "3 m/s")]

/-- An object that shadows `toString`, which no template literal can convert. -/
def unconvertible : JSVal :=
  .obj [("toString", .num "1")]

/-! ## Computations -/

theorem bind_eq {α β : Type} (m : Run α) (f : α → Run β) : (m >>= f) = Run.bind m f := rfl

theorem pure_eq {α : Type} (a : α) : (pure a : Run α) = Run.pure a := rfl

theorem Run.bind_ok {α β : Type} (events : List Event) (a : α) (f : α → Run β) :
    Run.bind (events, .ok a) f = (events ++ (f a).1, (f a).2) := rfl

theorem Run.bind_error {α β : Type} (events : List Event) (e : JSError) (f : α → Run β) :
    Run.bind (events, .error e) f = (events, .error e) := rfl

theorem tryCatch_ok {α : Type} (events : List Event) (a : α) (handler : JSError → Run α) :
    tryCatch (events, .ok a) handler = (events, .ok a) := rfl

theorem tryCatch_error {α : Type} (events : List Event) (e : JSError)
    (handler : JSError → Run α) :
    tryCatch (events, .error e) handler = (events ++ (handler e).1, (handler e).2) := rfl

/-- A handler that completes makes the whole `try` statement complete. -/
theorem tryCatch_completes {α : Type} (body : Run α) (handler : JSError → Run α)
    (h : ∀ e, ∃ a, (handler e).2 = .ok a) : ∃ a, (tryCatch body handler).2 = .ok a := by
  obtain ⟨events, r⟩ := body
  cases r with
  | error e => exact h e
  | ok a => exact ⟨a, rfl⟩

/-! ## Error messages of the engine -/

theorem append_ne_empty (a b : String) (h : a ≠ "") : a ++ b ≠ "" := by
  intro hab
  apply h
  have h2 : (a ++ b).data = [] := by rw [hab]
  rw [String.data_append] at h2
  exact String.ext (List.append_eq_nil.mp h2).1

theorem cannotRead_ne (base key : String) : cannotRead base key ≠ "" := by
  unfold cannotRead
  repeat apply append_ne_empty
  decide

theorem worded_bind {α β : Type} (x : Except JSError α) (f : α → Except JSError β)
    (hx : Worded x) (hf : ∀ a, Worded (f a)) : Worded (x >>= f) := by
  intro e h
  cases x with
  | error e0 =>
    have h0 : e0 = e := by simpa [bind, Except.bind] using h
    exact h0 ▸ hx e0 rfl
  | ok a => exact hf a e h

theorem worded_pure {α : Type} (a : α) : Worded (pure a : Except JSError α) := by
  intro e h
  cases h

theorem worded_getProp (v : JSVal) (k : String) : Worded (getProp v k) := by
  intro e h
  cases v <;> simp [getProp] at h <;> (subst h; exact cannotRead_ne _ _)

theorem worded_getIndex (v : JSVal) (i : Nat) : Worded (getIndex v i) := by
  intro e h
  cases v <;> simp [getIndex] at h <;> (subst h; exact cannotRead_ne _ _)

theorem worded_template (v : JSVal) : Worded (template v) := by
  intro e h
  unfold template at h
  split at h
  · simp at h
  · simp at h
    subst h
    decide

theorem worded_weatherRecord (data unit : JSVal) : Worded (weatherRecord data unit) := by
  unfold weatherRecord
  repeat' first
    | apply worded_pure
    | apply worded_getProp
    | apply worded_getIndex
    | apply worded_template
    | apply worded_bind
    | intro _

theorem bind_ok_inv {α β : Type} {x : Except JSError α} {f : α → Except JSError β} {b : β}
    (h : (x >>= f) = .ok b) : ∃ a, x = .ok a ∧ f a = .ok b := by
  cases x with
  | error e => simp [bind, Except.bind] at h
  | ok a => exact ⟨a, rfl, h⟩

theorem getProp_ok_inv {v w : JSVal} {k : String} (h : getProp v k = .ok w) :
    nullish v = false := by
  cases v <;> simp [getProp] at h <;> rfl

theorem getIndex_ok_inv {v w : JSVal} {i : Nat} (h : getIndex v i = .ok w) :
    nullish v = false := by
  cases v <;> simp [getIndex] at h <;> rfl

/-- A record is built only from a body that has every dereferenced field. -/
theorem weatherRecord_ok_inv {data unit w : JSVal} (h : weatherRecord data unit = .ok w) :
    lacksField data = false := by
  unfold weatherRecord at h
  obtain ⟨name, -, h⟩ := bind_ok_inv h
  obtain ⟨nameText, -, h⟩ := bind_ok_inv h
  obtain ⟨sys, h3, h⟩ := bind_ok_inv h
  obtain ⟨country, h4, h⟩ := bind_ok_inv h
  obtain ⟨countryText, -, h⟩ := bind_ok_inv h
  obtain ⟨main, h6, h⟩ := bind_ok_inv h
  obtain ⟨temp, h7, h⟩ := bind_ok_inv h
  obtain ⟨tempText, -, h⟩ := bind_ok_inv h
  obtain ⟨weather, h9, h⟩ := bind_ok_inv h
  obtain ⟨first, h10, h⟩ := bind_ok_inv h
  obtain ⟨description, h11, h⟩ := bind_ok_inv h
  obtain ⟨mainAgain, -, h⟩ := bind_ok_inv h
  obtain ⟨feels, -, h⟩ := bind_ok_inv h
  obtain ⟨feelsText, -, h⟩ := bind_ok_inv h
  obtain ⟨mainThird, -, h⟩ := bind_ok_inv h
  obtain ⟨humidity, -, h⟩ := bind_ok_inv h
  obtain ⟨humidityText, -, h⟩ := bind_ok_inv h
  obtain ⟨wind, h18, h⟩ := bind_ok_inv h
  obtain ⟨speed, h19, h⟩ := bind_ok_inv h
  simp [lacksField, h3, h6, h9, h10, h18, readOr, getProp_ok_inv h4, getProp_ok_inv h7,
    getIndex_ok_inv h10, getProp_ok_inv h11, getProp_ok_inv h19]

/-- The error record and the events of a lookup whose `try` block threw. -/
theorem getWeather_of_throw (env : Env) (location unit : JSVal) (events : List Event)
    (e : JSError)
    (h : getWeatherBody env location (withDefault unit (.str "celsius")) = (events, .error e)) :
    getWeather env location unit =
      (events ++ [.logError .red ("Error fetching weather data: " ++ e.message)],
        .ok (.obj [("error", .str e.message)])) := by
  simp [getWeather, h, tryCatch_error, getWeatherCatch, bind_eq, pure_eq, emit, Run.bind_ok,
    Run.pure]

theorem getWeather_completes (env : Env) (location unit : JSVal) :
    ∃ w, (getWeather env location unit).2 = .ok w := by
  unfold getWeather
  apply tryCatch_completes
  intro e
  exact ⟨_, rfl⟩

theorem body_no_key (env : Env) (location unit : JSVal)
    (h : env.WEATHER_API_KEY = none ∨ env.WEATHER_API_KEY = some "") :
    getWeatherBody env location unit =
      ([], .error ⟨"WEATHER_API_KEY is not set in .env file"⟩) := by
  rcases h with h | h <;> simp [getWeatherBody, h, throwNew]

theorem body_unencodable (env : Env) (location unit : JSVal) (apiKey : String) (e : JSError)
    (hkey : env.WEATHER_API_KEY = some apiKey) (hne : apiKey ≠ "")
    (hq : encodeURIComponent location = .error e) :
    getWeatherBody env location unit = ([], .error e) := by
  simp [getWeatherBody, hkey, hne, hq, bind_eq, eval, Run.bind_error]

theorem body_fetch_rejects (env : Env) (location unit : JSVal) (apiKey q : String)
    (e : JSError) (hkey : env.WEATHER_API_KEY = some apiKey) (hne : apiKey ≠ "")
    (hq : encodeURIComponent location = .ok q)
    (hf : env.fetch (weatherUrl q apiKey unit) = .reject e) :
    getWeatherBody env location unit = ([.fetch (weatherUrl q apiKey unit)], .error e) := by
  simp [getWeatherBody, hkey, hne, hq, hf, bind_eq, eval, emit, await, Run.bind_ok,
    Run.bind_error]

theorem body_not_ok (env : Env) (location unit : JSVal) (apiKey q : String)
    (response : Response) (hkey : env.WEATHER_API_KEY = some apiKey) (hne : apiKey ≠ "")
    (hq : encodeURIComponent location = .ok q)
    (hf : env.fetch (weatherUrl q apiKey unit) = .resolve response)
    (hok : response.ok = false) :
    getWeatherBody env location unit =
      ([.fetch (weatherUrl q apiKey unit)],
        .error ⟨"Weather API error: " ++ response.statusText⟩) := by
  simp [getWeatherBody, hkey, hne, hq, hf, hok, bind_eq, eval, emit, await, Run.bind_ok,
    throwNew]

theorem body_json_rejects (env : Env) (location unit : JSVal) (apiKey q : String)
    (response : Response) (e : JSError) (hkey : env.WEATHER_API_KEY = some apiKey)
    (hne : apiKey ≠ "") (hq : encodeURIComponent location = .ok q)
    (hf : env.fetch (weatherUrl q apiKey unit) = .resolve response)
    (hok : response.ok = true) (hj : response.json = .reject e) :
    getWeatherBody env location unit = ([.fetch (weatherUrl q apiKey unit)], .error e) := by
  simp [getWeatherBody, hkey, hne, hq, hf, hok, hj, bind_eq, eval, emit, await, Run.bind_ok,
    Run.bind_error]

theorem body_of_data (env : Env) (location unit : JSVal) (apiKey q : String)
    (response : Response) (data : JSVal) (hkey : env.WEATHER_API_KEY = some apiKey)
    (hne : apiKey ≠ "") (hq : encodeURIComponent location = .ok q)
    (hf : env.fetch (weatherUrl q apiKey unit) = .resolve response)
    (hok : response.ok = true) (hj : response.json = .resolve data) :
    getWeatherBody env location unit =
      ([.fetch (weatherUrl q apiKey unit)], weatherRecord data unit) := by
  simp [getWeatherBody, hkey, hne, hq, hf, hok, hj, bind_eq, eval, emit, await, Run.bind_ok]

theorem getWeather_of_record (env : Env) (location unit : JSVal) (apiKey q : String)
    (response : Response) (data w : JSVal) (hkey : env.WEATHER_API_KEY = some apiKey)
    (hne : apiKey ≠ "") (hq : encodeURIComponent location = .ok q)
    (hf : env.fetch (weatherUrl q apiKey (withDefault unit (.str "celsius")))
      = .resolve response)
    (hok : response.ok = true) (hj : response.json = .resolve data)
    (hrec : weatherRecord data (withDefault unit (.str "celsius")) = .ok w) :
    getWeather env location unit =
      ([.fetch (weatherUrl q apiKey (withDefault unit (.str "celsius")))], .ok w) := by
  rw [getWeather, body_of_data env location _ apiKey q response data hkey hne hq hf hok hj,
    hrec, tryCatch_ok]

/-- With a key and a location that converts, a lookup requests the weather URL once. -/
theorem getWeather_fetches (env : Env) (location unit : JSVal) (apiKey q : String)
    (hkey : env.WEATHER_API_KEY = some apiKey) (hne : apiKey ≠ "")
    (hq : encodeURIComponent location = .ok q) :
    (getWeather env location unit).1.filter Event.isFetch =
      [.fetch (weatherUrl q apiKey (withDefault unit (.str "celsius")))] := by
  cases hf : env.fetch (weatherUrl q apiKey (withDefault unit (.str "celsius"))) with
  | reject e =>
    rw [getWeather_of_throw env location unit _ e
      (body_fetch_rejects env location _ apiKey q e hkey hne hq hf)]
    rfl
  | resolve response =>
    cases hok : response.ok with
    | false =>
      rw [getWeather_of_throw env location unit _ ⟨_⟩
        (body_not_ok env location _ apiKey q response hkey hne hq hf hok)]
      rfl
    | true =>
      cases hj : response.json with
      | reject e =>
        rw [getWeather_of_throw env location unit _ e
          (body_json_rejects env location _ apiKey q response e hkey hne hq hf hok hj)]
        rfl
      | resolve data =>
        cases hrec : weatherRecord data (withDefault unit (.str "celsius")) with
        | ok w =>
          rw [getWeather_of_record env location unit apiKey q response data w hkey hne hq hf
            hok hj hrec]
          rfl
        | error e =>
          rw [getWeather_of_throw env location unit _ e
            (by rw [body_of_data env location _ apiKey q response data hkey hne hq hf hok hj,
              hrec])]
          rfl

theorem weatherUrl_celsius (q apiKey : String) :
    weatherUrl q apiKey (.str "celsius") =
      "https://api.openweathermap.org/data/2.5/weather?q=" ++ q ++ "&appid=" ++ apiKey
        ++ "&units=metric" := by
  have h : "&units=" ++ "metric" = "&units=metric" := by decide
  rw [← h, ← String.append_assoc]
  rfl

theorem weatherUrl_other (q apiKey s : String) (hs : s ≠ "celsius") :
    weatherUrl q apiKey (.str s) =
      "https://api.openweathermap.org/data/2.5/weather?q=" ++ q ++ "&appid=" ++ apiKey
        ++ "&units=imperial" := by
  have h : "&units=" ++ "imperial" = "&units=imperial" := by decide
  rw [← h, ← String.append_assoc]
  simp [weatherUrl, unitChoice, strictEqString, hs]

theorem unitChoice_other (s a b : String) (h : s ≠ "celsius") :
    unitChoice (.str s) a b = b := by
  simp [unitChoice, strictEqString, h]

theorem getWeather_other_unit (env : Env) (location : JSVal) (s : String)
    (h : s ≠ "celsius") :
    getWeather env location (.str s) = getWeather env location (.str "fahrenheit") := by
  simp only [getWeather, getWeatherBody, weatherRecord, weatherUrl, withDefault,
    unitChoice_other s _ _ h, unitChoice_other "fahrenheit" _ _ (by decide)]

/-- The record built from a body that carries every field the program reads. -/
theorem weatherRecord_of_fields (props sys main first wind : List (String × JSVal))
    (others : List JSVal) (unit : JSVal) (name country temp feels humidity speed : String)
    (hname : lookupProp props "name" = .str name)
    (hsys : lookupProp props "sys" = .obj sys)
    (hcountry : lookupProp sys "country" = .str country)
    (hmain : lookupProp props "main" = .obj main)
    (htemp : lookupProp main "temp" = .num temp)
    (hfeels : lookupProp main "feels_like" = .num feels)
    (hhumidity : lookupProp main "humidity" = .num humidity)
    (hweather : lookupProp props "weather" = .arr (.obj first :: others))
    (hwind : lookupProp props "wind" = .obj wind)
    (hspeed : lookupProp wind "speed" = .num speed) :
    weatherRecord (.obj props) unit =
      .ok (.obj [
        ("location", .str (name ++ ", " ++ country)),
        ("temperature", .str (temp ++ "\u00c2\u00b0" ++ unitChoice unit "C" "F")),
        ("description", lookupProp first "description"),
        ("feels_like", .str (feels ++ "\u00c2\u00b0" ++ unitChoice unit "C" "F")),
        ("humidity", .str (humidity ++ "%")),
        ("wind_speed", .str (speed ++ " " ++ unitChoice unit "m/s" "mph"))]) := by
  simp [weatherRecord, getProp, getIndex, template, toStr, hname, hsys, hcountry, hmain, htemp,
    hfeels, hhumidity, hweather, hwind, hspeed, bind, Except.bind, pure, Except.pure]

theorem weatherRecord_ok_shape {data unit w : JSVal} (h : weatherRecord data unit = .ok w) :
    isSuccessRecord w := by
  unfold weatherRecord at h
  obtain ⟨name, -, h⟩ := bind_ok_inv h
  obtain ⟨nameText, -, h⟩ := bind_ok_inv h
  obtain ⟨sys, -, h⟩ := bind_ok_inv h
  obtain ⟨country, -, h⟩ := bind_ok_inv h
  obtain ⟨countryText, -, h⟩ := bind_ok_inv h
  obtain ⟨main, -, h⟩ := bind_ok_inv h
  obtain ⟨temp, -, h⟩ := bind_ok_inv h
  obtain ⟨tempText, -, h⟩ := bind_ok_inv h
  obtain ⟨weather, -, h⟩ := bind_ok_inv h
  obtain ⟨first, -, h⟩ := bind_ok_inv h
  obtain ⟨description, -, h⟩ := bind_ok_inv h
  obtain ⟨mainAgain, -, h⟩ := bind_ok_inv h
  obtain ⟨feels, -, h⟩ := bind_ok_inv h
  obtain ⟨feelsText, -, h⟩ := bind_ok_inv h
  obtain ⟨mainThird, -, h⟩ := bind_ok_inv h
  obtain ⟨humidity, -, h⟩ := bind_ok_inv h
  obtain ⟨humidityText, -, h⟩ := bind_ok_inv h
  obtain ⟨wind, -, h⟩ := bind_ok_inv h
  obtain ⟨speed, -, h⟩ := bind_ok_inv h
  obtain ⟨speedText, -, h⟩ := bind_ok_inv h
  cases h
  exact ⟨_, _, _, _, _, _, rfl⟩

theorem success_has_no_error {w : JSVal} (h : isSuccessRecord w) :
    getProp w "error" = .ok .undefined := by
  obtain ⟨a, b, c, d, e, f, rfl⟩ := h
  simp [getProp, lookupProp]

theorem encode_error_ne (location : JSVal) (e : JSError)
    (h : encodeURIComponent location = .error e) : e.message ≠ "" := by
  unfold encodeURIComponent at h
  cases ht : template location with
  | ok s => simp [ht] at h
  | error e0 =>
    simp only [ht, Except.error.injEq] at h
    subst h
    exact worded_template location e0 ht

/-- Every lookup ends in one of two ways: its `try` block threw, and the result is the
error record of the message thrown, non-empty when the rejections carry a message; or
the lookup was answered, and the result is the record built from the body after the
one request. -/
theorem getWeather_outcome (env : Env) (location unit : JSVal) :
    (∃ events m, getWeather env location unit = (events, .ok (.obj [("error", .str m)])) ∧
        (rejectionsWorded env location unit → m ≠ "")) ∨
      ∃ url w, lookupAnswered env location unit url w ∧
        getWeather env location unit = ([.fetch url], .ok w) := by
  have thrown : ∀ events (e : JSError),
      getWeatherBody env location (withDefault unit (.str "celsius")) = (events, .error e) →
      (rejectionsWorded env location unit → e.message ≠ "") →
      (∃ events m, getWeather env location unit = (events, .ok (.obj [("error", .str m)])) ∧
        (rejectionsWorded env location unit → m ≠ "")) := by
    intro events e hb hm
    exact ⟨_, e.message, getWeather_of_throw env location unit events e hb, hm⟩
  have no_key : (env.WEATHER_API_KEY = none ∨ env.WEATHER_API_KEY = some "") →
      (∃ events m, getWeather env location unit = (events, .ok (.obj [("error", .str m)])) ∧
        (rejectionsWorded env location unit → m ≠ "")) := by
    intro hk
    exact thrown [] ⟨"WEATHER_API_KEY is not set in .env file"⟩
      (body_no_key env location _ hk) (fun _ => by decide)
  cases hkey : env.WEATHER_API_KEY with
  | none => exact Or.inl (no_key (Or.inl hkey))
  | some apiKey =>
    by_cases hne : apiKey = ""
    · exact Or.inl (no_key (Or.inr (hne ▸ hkey)))
    · cases hq : encodeURIComponent location with
      | error e =>
        exact Or.inl (thrown [] e (body_unencodable env location _ apiKey e hkey hne hq)
          (fun _ => encode_error_ne location e hq))
      | ok q =>
        cases hf : env.fetch (weatherUrl q apiKey (withDefault unit (.str "celsius"))) with
        | reject e =>
          exact Or.inl (thrown _ e
            (body_fetch_rejects env location _ apiKey q e hkey hne hq hf)
            (fun hw => (hw apiKey q hkey hq).1 e hf))
        | resolve response =>
          cases hok : response.ok with
          | false =>
            exact Or.inl (thrown _ ⟨"Weather API error: " ++ response.statusText⟩
              (body_not_ok env location _ apiKey q response hkey hne hq hf hok)
              (fun _ => append_ne_empty _ _ (by decide)))
          | true =>
            cases hj : response.json with
            | reject e =>
              exact Or.inl (thrown _ e
                (body_json_rejects env location _ apiKey q response e hkey hne hq hf hok hj)
                (fun hw => (hw apiKey q hkey hq).2 response e hf hj))
            | resolve data =>
              cases hrec : weatherRecord data (withDefault unit (.str "celsius")) with
              | error e =>
                exact Or.inl (thrown _ e
                  (by rw [body_of_data env location _ apiKey q response data hkey hne hq hf
                    hok hj, hrec])
                  (fun _ => worded_weatherRecord _ _ e hrec))
              | ok w =>
                exact Or.inr ⟨_, w, ⟨apiKey, q, response, data, hkey, hne, hq, rfl, hf, hok,
                  hj, hrec⟩,
                  getWeather_of_record env location unit apiKey q response data w hkey hne hq
                    hf hok hj hrec⟩

/-- An answered lookup took no failure path. -/
theorem answered_not_failure (env : Env) (location unit : JSVal) (url : String) (w : JSVal)
    (h : lookupAnswered env location unit url w) : ¬ failurePath env location unit := by
  obtain ⟨apiKey, q, response, data, hkey, hne, hq, rfl, hf, hok, hj, hrec⟩ := h
  rintro (hk | hk | ⟨k, q2, hk, hq2, hrest⟩)
  · rw [hkey] at hk
    cases hk
  · rw [hkey] at hk
    exact hne (Option.some.inj hk)
  · rw [hkey] at hk
    cases Option.some.inj hk
    rw [hq] at hq2
    cases hq2
    rcases hrest with ⟨e, hf2⟩ | ⟨r2, hf2, hr⟩
    · rw [hf] at hf2
      cases hf2
    · rw [hf] at hf2
      cases hf2
      rcases hr with h1 | ⟨e, h2⟩ | ⟨d, h3, h4⟩
      · rw [hok] at h1
        cases h1
      · rw [hj] at h2
        cases h2
      · rw [hj] at h3
        cases h3
        rw [weatherRecord_ok_inv hrec] at h4
        cases h4

theorem getWeather_fails (env : Env) (location unit : JSVal)
    (h : failurePath env location unit) :
    ∃ m, (getWeather env location unit).2 = .ok (.obj [("error", .str m)]) ∧
      (rejectionsWorded env location unit → m ≠ "") := by
  rcases getWeather_outcome env location unit with ⟨events, m, hg, hm⟩ | ⟨url, w, ha, -⟩
  · exact ⟨m, by rw [hg], hm⟩
  · exact absurd h (answered_not_failure env location unit url w ha)

/-! ## Claims on `getWeather` -/

/-- C6. When WEATHER_API_KEY is unset or empty, for every location and unit the lookup
returns exactly the record whose only field is error, with the message
"WEATHER_API_KEY is not set in .env file"; its only effect is the error line, so no
request is sent to the weather endpoint. -/
theorem getWeather_missing_key (env : Env) (location unit : JSVal)
    (h : env.WEATHER_API_KEY = none ∨ env.WEATHER_API_KEY = some "") :
    getWeather env location unit =
        ([.logError .red "Error fetching weather data: WEATHER_API_KEY is not set in .env file"],
          .ok (.obj [("error", .str "WEATHER_API_KEY is not set in .env file")])) ∧
      (getWeather env location unit).1.filter Event.isFetch = [] := by
  have h1 := getWeather_of_throw env location unit [] ⟨_⟩ (body_no_key env location _ h)
  rw [h1]
  exact ⟨rfl, rfl⟩

theorem getWeather_missing_key_witness :
    getWeather { tokyoEnv with WEATHER_API_KEY := none } (.str "Tokyo") .undefined =
        ([.logError .red "Error fetching weather data: WEATHER_API_KEY is not set in .env file"],
          .ok (.obj [("error", .str "WEATHER_API_KEY is not set in .env file")])) ∧
      (getWeather { tokyoEnv with WEATHER_API_KEY := none } (.str "Tokyo")
        .undefined).1.filter Event.isFetch = [] :=
  getWeather_missing_key { tokyoEnv with WEATHER_API_KEY := none } (.str "Tokyo") .undefined
    (Or.inl rfl)

/-- C1, evaluated at the input of the claim: unit celsius and the Tokyo body. The
request and every field are as the claim says, except that the temperature and
feels_like strings carry U+00C2 U+00B0 before the unit letter, not a lone degree sign. -/
theorem getWeather_tokyo_celsius :
    getWeather tokyoEnv (.str "Tokyo") (.str "celsius") =
        ([.fetch "https://api.openweathermap.org/data/2.5/weather?q=Tokyo&appid=k&units=metric"],
          .ok (.obj [
            ("location", .str "Tokyo, JP"),
            ("temperature", .str "18\u00c2\u00b0C"),
            ("description", .str "clear sky"),
            ("feels_like", .str "17\u00c2\u00b0C"),
            ("humidity", .str "60%"),
            ("wind_speed", .str "3 m/s")])) ∧
      "18\u00c2\u00b0C" ≠ "18\u00b0C" ∧ "17\u00c2\u00b0C" ≠ "17\u00b0C" :=
  ⟨rfl, by decide, by decide⟩

/-- C2. A lookup never raises: for every location, every unit and every outcome of the
environment it returns a value. On each failure path (API key missing, fetch rejecting,
status not ok, response.json() rejecting, or a body in which sys, main, weather,
weather[0] or wind is missing) the value is the record whose only field is error, holding
a string m; and m is non-empty, the rejections of this lookup carrying a message as
those of a real fetch do. -/
theorem getWeather_never_raises (env : Env) (location unit : JSVal) :
    (∃ w, (getWeather env location unit).2 = .ok w) ∧
      (failurePath env location unit →
        ∃ m, (getWeather env location unit).2 = .ok (.obj [("error", .str m)]) ∧
          (rejectionsWorded env location unit → m ≠ "")) :=
  ⟨getWeather_completes env location unit, getWeather_fails env location unit⟩

theorem getWeather_never_raises_witness :
    failurePath (fetchEnv (.reject ⟨"fetch failed"⟩)) (.str "Tokyo") .undefined ∧
      rejectionsWorded (fetchEnv (.reject ⟨"fetch failed"⟩)) (.str "Tokyo") .undefined ∧
      (getWeather (fetchEnv (.reject ⟨"fetch failed"⟩)) (.str "Tokyo") .undefined).2
        = .ok (.obj [("error", .str "fetch failed")]) ∧
      ∃ m, (getWeather (fetchEnv (.reject ⟨"fetch failed"⟩)) (.str "Tokyo") .undefined).2
          = .ok (.obj [("error", .str m)]) ∧
        (rejectionsWorded (fetchEnv (.reject ⟨"fetch failed"⟩)) (.str "Tokyo") .undefined →
          m ≠ "") :=
  have h : failurePath (fetchEnv (.reject ⟨"fetch failed"⟩)) (.str "Tokyo") .undefined :=
    Or.inr (Or.inr ⟨"k", "Tokyo", rfl, rfl, Or.inl ⟨_, rfl⟩⟩)
  have hw : rejectionsWorded (fetchEnv (.reject ⟨"fetch failed"⟩)) (.str "Tokyo")
      .undefined :=
    fun _ _ _ _ =>
      ⟨fun e he => by cases he; decide, fun response e hf _ => by cases hf⟩
  ⟨h, hw, rfl,
    (getWeather_never_raises (fetchEnv (.reject ⟨"fetch failed"⟩)) (.str "Tokyo")
      .undefined).2 h⟩

/-- C7, as stated, fails for the unit "kelvin": the request is built with units=imperial
and the result carries the suffixes of fahrenheit, F and mph. -/
theorem getWeather_kelvin :
    getWeather tokyoEnv (.str "Tokyo") (.str "kelvin") =
        ([.fetch "https://api.openweathermap.org/data/2.5/weather?q=Tokyo&appid=k&units=imperial"],
          .ok (.obj [
            ("location", .str "Tokyo, JP"),
            ("temperature", .str "18\u00c2\u00b0F"),
            ("description", .str "clear sky"),
            ("feels_like", .str "17\u00c2\u00b0F"),
            ("humidity", .str "60%"),
            ("wind_speed", .str "3 mph")])) ∧
      (getWeather tokyoEnv (.str "Tokyo") (.str "kelvin")).1
        ≠ (getWeather tokyoEnv (.str "Tokyo") (.str "celsius")).1 := by
  refine ⟨rfl, ?_⟩
  have h1 : (getWeather tokyoEnv (.str "Tokyo") (.str "kelvin")).1 =
      [.fetch "https://api.openweathermap.org/data/2.5/weather?q=Tokyo&appid=k&units=imperial"] :=
    rfl
  have h2 : (getWeather tokyoEnv (.str "Tokyo") (.str "celsius")).1 =
      [.fetch "https://api.openweathermap.org/data/2.5/weather?q=Tokyo&appid=k&units=metric"] :=
    rfl
  rw [h1, h2]
  simp

/-- C7, amended. The unit defaults to celsius only when it is absent. A lookup without
unit is the lookup with unit "celsius", and requests units=metric; destructuring
arguments without unit yields "celsius". Every unit string other than "celsius", valid
or not, is kept by the destructuring and gives the lookup of "fahrenheit", which requests
units=imperial. -/
theorem unit_defaults_when_absent (env : Env) (location : JSVal) (apiKey q : String)
    (hkey : env.WEATHER_API_KEY = some apiKey) (hne : apiKey ≠ "")
    (hq : encodeURIComponent location = .ok q) :
    getWeather env location .undefined = getWeather env location (.str "celsius") ∧
      (getWeather env location (.str "celsius")).1.filter Event.isFetch =
        [.fetch ("https://api.openweathermap.org/data/2.5/weather?q=" ++ q ++ "&appid="
          ++ apiKey ++ "&units=metric")] ∧
      (∀ props, lookupProp props "unit" = .undefined →
        destructureArgs (.obj props) = .ok (lookupProp props "location", .str "celsius")) ∧
      (∀ props s, lookupProp props "unit" = .str s →
        destructureArgs (.obj props) = .ok (lookupProp props "location", .str s)) ∧
      (∀ s, s ≠ "celsius" →
        getWeather env location (.str s) = getWeather env location (.str "fahrenheit") ∧
        (getWeather env location (.str s)).1.filter Event.isFetch =
          [.fetch ("https://api.openweathermap.org/data/2.5/weather?q=" ++ q ++ "&appid="
            ++ apiKey ++ "&units=imperial")]) := by
  refine ⟨rfl, ?_, ?_, ?_, ?_⟩
  · rw [getWeather_fetches env location _ apiKey q hkey hne hq]
    exact congrArg (fun url => [Event.fetch url]) (weatherUrl_celsius q apiKey)
  · intro props h
    simp [destructureArgs, h, withDefault]
  · intro props s h
    simp [destructureArgs, h, withDefault]
  · intro s hs
    refine ⟨getWeather_other_unit env location s hs, ?_⟩
    rw [getWeather_fetches env location _ apiKey q hkey hne hq]
    exact congrArg (fun url => [Event.fetch url]) (weatherUrl_other q apiKey s hs)

theorem unit_defaults_when_absent_witness :
    getWeather tokyoEnv (.str "Tokyo") .undefined
        = getWeather tokyoEnv (.str "Tokyo") (.str "celsius") ∧
      (getWeather tokyoEnv (.str "Tokyo") (.str "celsius")).1.filter Event.isFetch =
        [.fetch ("https://api.openweathermap.org/data/2.5/weather?q=" ++ "Tokyo" ++ "&appid="
          ++ "k" ++ "&units=metric")] ∧
      (∀ props, lookupProp props "unit" = .undefined →
        destructureArgs (.obj props) = .ok (lookupProp props "location", .str "celsius")) ∧
      (∀ props s, lookupProp props "unit" = .str s →
        destructureArgs (.obj props) = .ok (lookupProp props "location", .str s)) ∧
      (∀ s, s ≠ "celsius" →
        getWeather tokyoEnv (.str "Tokyo") (.str s)
          = getWeather tokyoEnv (.str "Tokyo") (.str "fahrenheit") ∧
        (getWeather tokyoEnv (.str "Tokyo") (.str s)).1.filter Event.isFetch =
          [.fetch ("https://api.openweathermap.org/data/2.5/weather?q=" ++ "Tokyo" ++ "&appid="
            ++ "k" ++ "&units=imperial")]) :=
  unit_defaults_when_absent tokyoEnv (.str "Tokyo") "k" "Tokyo" rfl (by decide) rfl

/-! ## Events of a computation -/

theorem only_bind {α β : Type} {p : Event → Bool} {m : Run α} {f : α → Run β}
    (hm : Only p m) (hf : ∀ a, Only p (f a)) : Only p (m >>= f) := by
  obtain ⟨events, r⟩ := m
  cases r with
  | error e => exact hm
  | ok a =>
    intro e he
    rcases List.mem_append.mp he with h | h
    · exact hm e h
    · exact hf a e h

theorem only_silent {α : Type} {p : Event → Bool} (r : Except JSError α) :
    Only p (([], r) : Run α) := by
  intro e he
  cases he

theorem only_pure {α : Type} {p : Event → Bool} (a : α) : Only p (pure a : Run α) :=
  only_silent _

theorem only_eval {α : Type} {p : Event → Bool} (r : Except JSError α) : Only p (eval r) :=
  only_silent _

theorem only_throwNew {α : Type} {p : Event → Bool} (message : String) :
    Only p (throwNew message : Run α) :=
  only_silent _

theorem only_await {α : Type} {p : Event → Bool} (s : Settled α) : Only p (await s) := by
  cases s <;> exact only_silent _

theorem only_emit {p : Event → Bool} (e : Event) (h : p e = true) : Only p (emit e) := by
  intro x hx
  rcases List.mem_singleton.mp hx with rfl
  exact h

theorem only_tryCatch {α : Type} {p : Event → Bool} {body : Run α}
    {handler : JSError → Run α} (hb : Only p body) (hh : ∀ e, Only p (handler e)) :
    Only p (tryCatch body handler) := by
  obtain ⟨events, r⟩ := body
  cases r with
  | ok a => exact hb
  | error e =>
    intro x hx
    rcases List.mem_append.mp hx with h | h
    · exact hb x h
    · exact hh e x h

theorem filter_eq_nil_of_only {α : Type} {q : Event → Bool} {m : Run α}
    (h : Only (fun e => !q e) m) : m.1.filter q = [] := by
  apply List.filter_eq_nil_iff.mpr
  intro e he
  have := h e he
  simpa using this

/-- A lookup performs requests to the weather endpoint and error lines only. -/
theorem getWeather_only (p : Event → Bool) (env : Env) (location unit : JSVal)
    (hf : ∀ url, p (.fetch url) = true) (hl : ∀ c t, p (.logError c t) = true) :
    Only p (getWeather env location unit) := by
  unfold getWeather
  apply only_tryCatch
  · unfold getWeatherBody
    split
    · exact only_throwNew _
    · split
      · exact only_throwNew _
      · apply only_bind (only_eval _)
        intro q
        apply only_bind (only_emit _ (hf _))
        intro _
        apply only_bind (only_await _)
        intro response
        split
        · exact only_throwNew _
        · exact only_bind (only_await _) (fun _ => only_eval _)
  · intro e
    exact only_bind (only_emit _ (hl _ _)) (fun _ => only_pure _)

/-- The report prints lines and one value only. -/
theorem printWeather_only (p : Event → Bool) (w : JSVal) (r : ChatCompletion)
    (hlog : ∀ c t, p (.log c t) = true) (hv : ∀ v, p (.logValue v) = true) :
    Only p (printWeather w r) := by
  unfold printWeather
  repeat' first
    | exact only_eval _
    | exact only_emit _ (hlog _ _)
    | exact only_emit _ (hv _)
    | apply only_bind
    | intro _

/-! ## Paths of a turn -/

theorem processUserInput_eq (env : Env) (input : String) :
    processUserInput env input =
      (.log .blue "Thinking..." :: (tryCatch (processBody env input) processCatch).1,
        (tryCatch (processBody env input) processCatch).2) := rfl

theorem turn_of_throw (env : Env) (input : String) (events : List Event) (e : JSError)
    (h : processBody env input = (events, .error e)) :
    processUserInput env input =
      (.log .blue "Thinking..." :: (events ++ [.logError .red ("Error: " ++ e.message)]),
        .ok ()) := by
  rw [processUserInput_eq, h]
  rfl

theorem turn_of_return (env : Env) (input : String) (events : List Event)
    (h : processBody env input = (events, .ok ())) :
    processUserInput env input = (.log .blue "Thinking..." :: events, .ok ()) := by
  rw [processUserInput_eq, h]
  rfl

theorem processUserInput_completes (env : Env) (input : String) :
    (processUserInput env input).2 = .ok () := by
  rw [processUserInput_eq]
  obtain ⟨a, h⟩ := tryCatch_completes (processBody env input) processCatch
    (fun e => ⟨(), rfl⟩)
  exact h

/-- The events of a turn that satisfy `q`, when neither the first line nor the error
line of the turn does: they are those of the `try` block. -/
theorem turn_filter (q : Event → Bool) (env : Env) (input : String)
    (hlog : ∀ t, q (.log .blue t) = false) (herr : ∀ c t, q (.logError c t) = false) :
    (processUserInput env input).1.filter q = (processBody env input).1.filter q := by
  rw [processUserInput_eq]
  obtain ⟨events, r⟩ := processBody env input
  cases r with
  | ok a => simp [tryCatch_ok, hlog]
  | error e => simp [tryCatch_error, processCatch, emit, hlog, herr]

theorem body_first_rejects (env : Env) (input : String) (e : JSError)
    (h : env.chat (firstRequest input) = .reject e) :
    processBody env input = ([.chat (firstRequest input)], .error e) := by
  simp [processBody, h, bind_eq, emit, await, Run.bind_ok, Run.bind_error]

theorem body_no_tool_call (env : Env) (input : String) (response : ChatCompletion)
    (message : Message) (others : List Choice)
    (h : env.chat (firstRequest input) = .resolve response)
    (hc : response.choices = ⟨message⟩ :: others)
    (ht : message.tool_calls = none ∨ message.tool_calls = some []) :
    processBody env input =
      ([.chat (firstRequest input), .logMessage message, .log .green "\nAssistant:",
        .logValue message.content], .ok ()) := by
  rcases ht with ht | ht <;>
    simp [processBody, h, hc, ht, firstMessage, bind_eq, emit, await, eval, Run.bind_ok]

theorem body_tool_call (env : Env) (input : String) (response : ChatCompletion)
    (message : Message) (others : List Choice) (toolCall : ToolCall) (more : List ToolCall)
    (h : env.chat (firstRequest input) = .resolve response)
    (hc : response.choices = ⟨message⟩ :: others)
    (ht : message.tool_calls = some (toolCall :: more))
    (hn : toolCall.function.name = "get_weather") :
    processBody env input =
      (.chat (firstRequest input) :: .logMessage message
          :: (weatherBranch env input message toolCall).1,
        (weatherBranch env input message toolCall).2) := by
  simp [processBody, h, hc, ht, hn, firstMessage, bind_eq, emit, await, eval, Run.bind_ok]

theorem branch_parse_error (env : Env) (input : String) (message : Message)
    (toolCall : ToolCall) (e : JSError)
    (h : env.jsonParse toolCall.function.arguments = .error e) :
    weatherBranch env input message toolCall = ([], .error e) := by
  simp [weatherBranch, h, bind_eq, eval, Run.bind_error]

theorem branch_lookup (env : Env) (input : String) (message : Message)
    (toolCall : ToolCall) (args location unit w : JSVal) (text : String)
    (h : env.jsonParse toolCall.function.arguments = .ok args)
    (hd : destructureArgs args = .ok (location, unit))
    (ht : template location = .ok text)
    (hw : (getWeather env location unit).2 = .ok w) :
    weatherBranch env input message toolCall =
      (.log .blue ("Fetching weather for " ++ text ++ "...")
          :: ((getWeather env location unit).1
            ++ (reportWeather env input message toolCall w).1),
        (reportWeather env input message toolCall w).2) := by
  rcases hg : getWeather env location unit with ⟨events, r⟩
  simp only [hg] at hw
  subst hw
  simp [weatherBranch, h, hd, ht, hg, bind_eq, eval, emit, Run.bind_ok]

theorem report_error (env : Env) (input : String) (message : Message) (toolCall : ToolCall)
    (m : String) (hm : m ≠ "") :
    reportWeather env input message toolCall (.obj [("error", .str m)]) =
      ([.log .red ("Error: " ++ m)], .ok ()) := by
  simp [reportWeather, getProp, lookupProp, truthy, hm, template, toStr, bind_eq, eval, emit,
    Run.bind_ok]

theorem report_second_call (env : Env) (input : String) (message : Message)
    (toolCall : ToolCall) (w error : JSVal) (he : getProp w "error" = .ok error)
    (hf : truthy error = false) :
    reportWeather env input message toolCall w =
      (.logToolData w toolCall :: .chat (secondRequest input message toolCall w)
          :: (await (env.chat (secondRequest input message toolCall w))
            >>= printWeather w).1,
        (await (env.chat (secondRequest input message toolCall w)) >>= printWeather w).2) := by
  simp [reportWeather, he, hf, bind_eq, eval, emit, Run.bind_ok]

theorem template_of_lookup_success (env : Env) (location unit w : JSVal)
    (hw : (getWeather env location unit).2 = .ok w)
    (hsucc : getProp w "error" = .ok .undefined) : ∃ text, template location = .ok text := by
  cases ht : template location with
  | ok text => exact ⟨text, rfl⟩
  | error e =>
    exfalso
    have hq : encodeURIComponent location = .error e := by simp [encodeURIComponent, ht]
    have hbody : ∃ events e0,
        getWeatherBody env location (withDefault unit (.str "celsius"))
          = (events, .error e0) := by
      cases hkey : env.WEATHER_API_KEY with
      | none => exact ⟨_, _, body_no_key env location _ (Or.inl hkey)⟩
      | some k =>
        by_cases hk : k = ""
        · exact ⟨_, _, body_no_key env location _ (Or.inr (hk ▸ hkey))⟩
        · exact ⟨_, _, body_unencodable env location _ k e hkey hk hq⟩
    obtain ⟨events, e0, hb⟩ := hbody
    rw [getWeather_of_throw env location unit events e0 hb] at hw
    simp only [Except.ok.injEq] at hw
    subst hw
    simp [getProp, lookupProp] at hsucc

/-- After a lookup without error, the model is called once more, and nothing else is. -/
theorem report_chats (env : Env) (input : String) (message : Message) (toolCall : ToolCall)
    (w : JSVal) (hsucc : getProp w "error" = .ok .undefined) :
    (reportWeather env input message toolCall w).1.filter Event.isChat =
      [.chat (secondRequest input message toolCall w)] := by
  rw [report_second_call env input message toolCall w .undefined hsucc rfl]
  have hrest : (await (env.chat (secondRequest input message toolCall w))
      >>= printWeather w).1.filter Event.isChat = [] :=
    filter_eq_nil_of_only
      (only_bind (only_await _)
        (fun r => printWeather_only _ w r (fun _ _ => rfl) (fun _ => rfl)))
  simp [List.filter_cons, Event.isChat, hrest]

theorem branch_unconvertible (env : Env) (input : String) (message : Message)
    (toolCall : ToolCall) (args location unit : JSVal) (e : JSError)
    (h : env.jsonParse toolCall.function.arguments = .ok args)
    (hd : destructureArgs args = .ok (location, unit))
    (ht : template location = .error e) :
    weatherBranch env input message toolCall = ([], .error e) := by
  simp [weatherBranch, h, hd, ht, bind_eq, eval, Run.bind_ok, Run.bind_error]

/-- A lookup returns an error record or a success record, never anything else. -/
theorem getWeather_record (env : Env) (location unit w : JSVal)
    (hw : (getWeather env location unit).2 = .ok w) :
    (∃ m, w = .obj [("error", .str m)] ∧ (rejectionsWorded env location unit → m ≠ "")) ∨
      (∃ url, lookupAnswered env location unit url w ∧
        getWeather env location unit = ([.fetch url], .ok w)) := by
  rcases getWeather_outcome env location unit with ⟨events, m, hg, hm⟩ | ⟨url, w0, ha, hg⟩
  · rw [hg] at hw
    simp only [Except.ok.injEq] at hw
    exact Or.inl ⟨m, hw.symm, hm⟩
  · have h0 := hw
    rw [hg] at h0
    simp only [Except.ok.injEq] at h0
    subst h0
    exact Or.inr ⟨url, ha, hg⟩

theorem answered_is_success (env : Env) (location unit : JSVal) (url : String) (w : JSVal)
    (h : lookupAnswered env location unit url w) : isSuccessRecord w := by
  obtain ⟨apiKey, q, response, data, -, -, -, -, -, -, -, hrec⟩ := h
  exact weatherRecord_ok_shape hrec

/-! ## Claims on `processUserInput` -/

/-- C3. For every utterance, if the message of the first response has a non-empty list
of tool calls whose first entry names get_weather with arguments that parse, and the
lookup returns a record w without error, then the turn calls the model exactly twice, and
the second request has no tools, no tool_choice, and exactly the messages: the weather
system instruction, the utterance as user, the assistant message of the first response
unchanged, and a tool message with the id of that tool call and JSON.stringify(w). -/
theorem second_request_after_lookup (env : Env) (input : String) (message : Message)
    (toolCall : ToolCall) (location unit w : JSVal)
    (hreq : requestsLookup env input message toolCall location unit)
    (hw : (getWeather env location unit).2 = .ok w)
    (hsucc : getProp w "error" = .ok .undefined) :
    (processUserInput env input).1.filter Event.isChat =
      [.chat (firstRequest input),
        .chat
          { model := "Proton"
            messages := [
              .text "system"
                "You are a helpful weather assistant. Provide weather information in a friendly, concise way.",
              .text "user" input,
              .assistant message,
              .tool toolCall.id (JSON.stringify w)]
            tools := none
            tool_choice := none }] := by
  obtain ⟨response, others, more, args, hchat, hc, ht, hn, hp, hd⟩ := hreq
  obtain ⟨text, htext⟩ := template_of_lookup_success env location unit w hw hsucc
  have hgw : (getWeather env location unit).1.filter Event.isChat = [] :=
    filter_eq_nil_of_only
      (getWeather_only _ env location unit (fun _ => rfl) (fun _ _ => rfl))
  rw [turn_filter Event.isChat env input (fun _ => rfl) (fun _ _ => rfl),
    body_tool_call env input response message others toolCall more hchat hc ht hn,
    branch_lookup env input message toolCall args location unit w text hp hd htext hw]
  simp only [List.filter_cons, List.filter_append, hgw,
    report_chats env input message toolCall w hsucc, Event.isChat]
  rfl

theorem second_request_after_lookup_witness :
    requestsLookup tokyoEnv "What is the weather in Tokyo?" (callMessage tokyoCall)
        tokyoCall (.str "Tokyo") (.str "celsius") ∧
      (processUserInput tokyoEnv "What is the weather in Tokyo?").1.filter Event.isChat =
        [.chat (firstRequest "What is the weather in Tokyo?"),
          .chat
            { model := "Proton"
              messages := [
                .text "system"
                  "You are a helpful weather assistant. Provide weather information in a friendly, concise way.",
                .text "user" "What is the weather in Tokyo?",
                .assistant (callMessage tokyoCall),
                .tool "call_1"
                  (some "\x7b\"location\":\"Tokyo, JP\",\"temperature\":\"18\u00c2\u00b0C\",\"description\":\"clear sky\",\"feels_like\":\"17\u00c2\u00b0C\",\"humidity\":\"60%\",\"wind_speed\":\"3 m/s\"\x7d")]
              tools := none
              tool_choice := none }] :=
  have h : requestsLookup tokyoEnv "What is the weather in Tokyo?" (callMessage tokyoCall)
      tokyoCall (.str "Tokyo") (.str "celsius") :=
    ⟨_, [], [], _, rfl, rfl, rfl, rfl, rfl, rfl⟩
  ⟨h, second_request_after_lookup tokyoEnv "What is the weather in Tokyo?"
    (callMessage tokyoCall) tokyoCall (.str "Tokyo") (.str "celsius") _ h rfl rfl⟩

/-- C4. For every utterance, if the message of the first response carries no tool calls
(the list is absent or empty), the turn calls the model exactly once, makes no request to
the weather endpoint, and the reply it prints is the content of that message. -/
theorem direct_answer (env : Env) (input : String) (response : ChatCompletion)
    (message : Message) (others : List Choice)
    (h : env.chat (firstRequest input) = .resolve response)
    (hc : response.choices = ⟨message⟩ :: others)
    (ht : message.tool_calls = none ∨ message.tool_calls = some []) :
    processUserInput env input =
        ([.log .blue "Thinking...", .chat (firstRequest input), .logMessage message,
          .log .green "\nAssistant:", .logValue message.content], .ok ()) ∧
      (processUserInput env input).1.filter Event.isChat = [.chat (firstRequest input)] ∧
      (processUserInput env input).1.filter Event.isFetch = [] := by
  have hturn := turn_of_return env input _ (body_no_tool_call env input response message
    others h hc ht)
  rw [hturn]
  exact ⟨rfl, rfl, rfl⟩

theorem direct_answer_witness :
    processUserInput (chatEnv (textMessage "Hello!")) "Hi" =
        ([.log .blue "Thinking...", .chat (firstRequest "Hi"),
          .logMessage (textMessage "Hello!"),
          .log .green "\nAssistant:", .logValue (textMessage "Hello!").content], .ok ()) ∧
      (processUserInput (chatEnv (textMessage "Hello!")) "Hi").1.filter Event.isChat
        = [.chat (firstRequest "Hi")] ∧
      (processUserInput (chatEnv (textMessage "Hello!")) "Hi").1.filter Event.isFetch = [] :=
  direct_answer (chatEnv (textMessage "Hello!")) "Hi"
    { choices := [{ message := textMessage "Hello!" }] } (textMessage "Hello!") [] rfl rfl
    (Or.inl rfl)

/-- C5. For every turn that takes the tool path and makes the lookup, whenever the
record returned by the lookup carries an error field, whatever its message, the turn
prints the error and ends: after the events of the lookup comes the error line and
nothing else. The model is called once only, and the lines printed are the Thinking line,
the Fetching line and the error line: no line of the weather block, no heading, and no
reply of the model. The rejections of the lookup are taken to carry a message, as those
of a real fetch do, so that no message the lookup returns is empty. -/
theorem lookup_error_ends_turn (env : Env) (input : String) (message : Message)
    (toolCall : ToolCall) (location unit w : JSVal) (text : String)
    (hreq : requestsLookup env input message toolCall location unit)
    (htext : template location = .ok text)
    (hw : (getWeather env location unit).2 = .ok w)
    (herr : getProp w "error" ≠ .ok .undefined)
    (hworded : rejectionsWorded env location unit) :
    ∃ m, w = .obj [("error", .str m)] ∧
      processUserInput env input =
        (.log .blue "Thinking..." :: .chat (firstRequest input) :: .logMessage message
            :: .log .blue ("Fetching weather for " ++ text ++ "...")
            :: ((getWeather env location unit).1 ++ [.log .red ("Error: " ++ m)]),
          .ok ()) ∧
      (processUserInput env input).1.filter Event.isChat = [.chat (firstRequest input)] ∧
      (processUserInput env input).1.filter Event.isLog =
        [.log .blue "Thinking...", .log .blue ("Fetching weather for " ++ text ++ "..."),
          .log .red ("Error: " ++ m)] ∧
      (processUserInput env input).1.filter Event.isValue = [] := by
  rcases getWeather_record env location unit w hw with ⟨m, hm, hne⟩ | ⟨url, ha, -⟩
  · subst hm
    have hm := hne hworded
    obtain ⟨response, others, more, args, hchat, hc, ht, hn, hp, hd⟩ := hreq
    have hbody : processBody env input =
        (.chat (firstRequest input) :: .logMessage message
            :: .log .blue ("Fetching weather for " ++ text ++ "...")
            :: ((getWeather env location unit).1 ++ [.log .red ("Error: " ++ m)]),
          .ok ()) := by
      rw [body_tool_call env input response message others toolCall more hchat hc ht hn,
        branch_lookup env input message toolCall args location unit _ text hp hd htext hw,
        report_error env input message toolCall m hm]
    have hchats : (getWeather env location unit).1.filter Event.isChat = [] :=
      filter_eq_nil_of_only
        (getWeather_only _ env location unit (fun _ => rfl) (fun _ _ => rfl))
    have hlogs : (getWeather env location unit).1.filter Event.isLog = [] :=
      filter_eq_nil_of_only
        (getWeather_only _ env location unit (fun _ => rfl) (fun _ _ => rfl))
    have hvalues : (getWeather env location unit).1.filter Event.isValue = [] :=
      filter_eq_nil_of_only
        (getWeather_only _ env location unit (fun _ => rfl) (fun _ _ => rfl))
    rw [turn_of_return env input _ hbody]
    refine ⟨m, rfl, rfl, ?_, ?_, ?_⟩
    · simp only [List.filter_cons, List.filter_append, hchats, Event.isChat]
      rfl
    · simp only [List.filter_cons, List.filter_append, hlogs, Event.isLog]
      rfl
    · simp only [List.filter_cons, List.filter_append, hvalues, Event.isValue]
      rfl
  · exact absurd (success_has_no_error (answered_is_success env location unit url w ha)) herr

theorem lookup_error_ends_turn_witness :
    requestsLookup (fetchEnv (.reject ⟨"fetch failed"⟩)) "Tokyo?" (callMessage tokyoCall)
        tokyoCall (.str "Tokyo") (.str "celsius") ∧
      rejectionsWorded (fetchEnv (.reject ⟨"fetch failed"⟩)) (.str "Tokyo")
        (.str "celsius") ∧
      processUserInput (fetchEnv (.reject ⟨"fetch failed"⟩)) "Tokyo?" =
        ([.log .blue "Thinking...",
          .chat (firstRequest "Tokyo?"),
          .logMessage (callMessage tokyoCall),
          .log .blue "Fetching weather for Tokyo...",
          .fetch "https://api.openweathermap.org/data/2.5/weather?q=Tokyo&appid=k&units=metric",
          .logError .red "Error fetching weather data: fetch failed",
          .log .red "Error: fetch failed"], .ok ()) ∧
      ∃ m, JSVal.obj [("error", .str "fetch failed")] = .obj [("error", .str m)] ∧
        processUserInput (fetchEnv (.reject ⟨"fetch failed"⟩)) "Tokyo?" =
          (.log .blue "Thinking..." :: .chat (firstRequest "Tokyo?")
              :: .logMessage (callMessage tokyoCall)
              :: .log .blue ("Fetching weather for " ++ "Tokyo" ++ "...")
              :: ((getWeather (fetchEnv (.reject ⟨"fetch failed"⟩)) (.str "Tokyo")
                  (.str "celsius")).1 ++ [.log .red ("Error: " ++ m)]),
            .ok ()) ∧
        (processUserInput (fetchEnv (.reject ⟨"fetch failed"⟩)) "Tokyo?").1.filter
          Event.isChat = [.chat (firstRequest "Tokyo?")] ∧
        (processUserInput (fetchEnv (.reject ⟨"fetch failed"⟩)) "Tokyo?").1.filter
          Event.isLog =
          [.log .blue "Thinking...", .log .blue ("Fetching weather for " ++ "Tokyo" ++ "..."),
            .log .red ("Error: " ++ m)] ∧
        (processUserInput (fetchEnv (.reject ⟨"fetch failed"⟩)) "Tokyo?").1.filter
          Event.isValue = [] :=
  have h : requestsLookup (fetchEnv (.reject ⟨"fetch failed"⟩)) "Tokyo?"
      (callMessage tokyoCall) tokyoCall (.str "Tokyo") (.str "celsius") :=
    ⟨_, [], [], _, rfl, rfl, rfl, rfl, rfl, rfl⟩
  have hworded : rejectionsWorded (fetchEnv (.reject ⟨"fetch failed"⟩)) (.str "Tokyo")
      (.str "celsius") :=
    fun _ _ _ _ =>
      ⟨fun e he => by cases he; decide, fun response e hf _ => by cases hf⟩
  ⟨h, hworded, rfl,
    lookup_error_ends_turn (fetchEnv (.reject ⟨"fetch failed"⟩)) "Tokyo?"
      (callMessage tokyoCall) tokyoCall (.str "Tokyo") (.str "celsius")
      (.obj [("error", .str "fetch failed")]) "Tokyo" h rfl rfl
      (by simp [getProp, lookupProp]) hworded⟩

/-- C9. A turn never raises: for every utterance and environment it completes. When
the first tool call names get_weather with arguments that are not valid JSON, the
exception is caught by the boundary of the turn and an error line is printed; neither a
lookup nor a second call to the model is made. Likewise when a call to the model
rejects. If it is the first call, the turn is the Thinking line, the request and the
error line. If it is the second, which comes after the lookup, the turn is as far as
that request the turn of a successful lookup (one request to the weather endpoint, the
second request to the model), then the error line, and nothing of the weather block or
of the interpretation is printed. In every case the loop goes on to ask the next
question. -/
theorem turn_never_raises (env : Env) (input : String) :
    (processUserInput env input).2 = .ok () ∧
      (∀ response message others toolCall more e,
        env.chat (firstRequest input) = .resolve response →
        response.choices = ⟨message⟩ :: others →
        message.tool_calls = some (toolCall :: more) →
        toolCall.function.name = "get_weather" →
        env.jsonParse toolCall.function.arguments = .error e →
        processUserInput env input =
            ([.log .blue "Thinking...", .chat (firstRequest input), .logMessage message,
              .logError .red ("Error: " ++ e.message)], .ok ()) ∧
          (processUserInput env input).1.filter Event.isFetch = [] ∧
          (processUserInput env input).1.filter Event.isChat = [.chat (firstRequest input)]) ∧
      (∀ e, env.chat (firstRequest input) = .reject e →
        processUserInput env input =
            ([.log .blue "Thinking...", .chat (firstRequest input),
              .logError .red ("Error: " ++ e.message)], .ok ()) ∧
          (processUserInput env input).1.filter Event.isFetch = [] ∧
          (processUserInput env input).1.filter Event.isChat = [.chat (firstRequest input)]) ∧
      (∀ message toolCall location unit w e,
        requestsLookup env input message toolCall location unit →
        (getWeather env location unit).2 = .ok w →
        getProp w "error" = .ok .undefined →
        env.chat (secondRequest input message toolCall w) = .reject e →
        ∃ text url, template location = .ok text ∧
          lookupAnswered env location unit url w ∧
          processUserInput env input =
            ([.log .blue "Thinking...",
              .chat (firstRequest input),
              .logMessage message,
              .log .blue ("Fetching weather for " ++ text ++ "..."),
              .fetch url,
              .logToolData w toolCall,
              .chat (secondRequest input message toolCall w),
              .logError .red ("Error: " ++ e.message)], .ok ())) ∧
      (∀ rest, toLowerCase input ≠ "exit" →
        askQuestion env (input :: rest) =
            .question questionPrompt
              :: ((processUserInput env input).1 ++ askQuestion env rest) ∧
          ∃ more, askQuestion env rest = .question questionPrompt :: more) := by
  refine ⟨processUserInput_completes env input, ?_, ?_, ?_, ?_⟩
  · intro response message others toolCall more e h hc ht hn hp
    have hbody : processBody env input =
        ([.chat (firstRequest input), .logMessage message], .error e) := by
      rw [body_tool_call env input response message others toolCall more h hc ht hn,
        branch_parse_error env input message toolCall e hp]
    rw [turn_of_throw env input _ e hbody]
    exact ⟨rfl, rfl, rfl⟩
  · intro e h
    rw [turn_of_throw env input _ e (body_first_rejects env input e h)]
    exact ⟨rfl, rfl, rfl⟩
  · intro message toolCall location unit w e hreq hw hsucc hsecond
    obtain ⟨response, others, more, args, hchat, hc, ht, hn, hp, hd⟩ := hreq
    obtain ⟨text, htext⟩ := template_of_lookup_success env location unit w hw hsucc
    rcases getWeather_record env location unit w hw with ⟨m, hm, -⟩ | ⟨url, ha, hg⟩
    · subst hm
      simp [getProp, lookupProp] at hsucc
    · refine ⟨text, url, htext, ha, ?_⟩
      have hbody : processBody env input =
          ([.chat (firstRequest input), .logMessage message,
            .log .blue ("Fetching weather for " ++ text ++ "..."), .fetch url,
            .logToolData w toolCall, .chat (secondRequest input message toolCall w)],
            .error e) := by
        rw [body_tool_call env input response message others toolCall more hchat hc ht hn,
          branch_lookup env input message toolCall args location unit w text hp hd htext hw,
          report_second_call env input message toolCall w .undefined hsucc rfl, hsecond, hg]
        rfl
      rw [turn_of_throw env input _ e hbody]
      rfl
  · intro rest hq
    have h2 := processUserInput_completes env input
    rcases hp : processUserInput env input with ⟨events, r⟩
    rw [hp] at h2
    simp only at h2
    subst h2
    refine ⟨by simp [askQuestion, hq, hp], ?_⟩
    cases rest with
    | nil => exact ⟨[], rfl⟩
    | cons next others => exact ⟨_, rfl⟩

theorem turn_never_raises_witness :
    (processUserInput (chatEnv (callMessage (callWith ""))) "Tokyo?" =
          ([.log .blue "Thinking...", .chat (firstRequest "Tokyo?"),
            .logMessage (callMessage (callWith "")),
            .logError .red ("Error: " ++ "Unexpected end of JSON input")], .ok ()) ∧
        (processUserInput (chatEnv (callMessage (callWith ""))) "Tokyo?").1.filter
          Event.isFetch = [] ∧
        (processUserInput (chatEnv (callMessage (callWith ""))) "Tokyo?").1.filter
          Event.isChat = [.chat (firstRequest "Tokyo?")]) ∧
      (processUserInput { tokyoEnv with chat := fun _ => .reject ⟨"Connection error."⟩ }
            "Tokyo?" =
          ([.log .blue "Thinking...", .chat (firstRequest "Tokyo?"),
            .logError .red ("Error: " ++ "Connection error.")], .ok ()) ∧
        (processUserInput { tokyoEnv with chat := fun _ => .reject ⟨"Connection error."⟩ }
          "Tokyo?").1.filter Event.isFetch = [] ∧
        (processUserInput { tokyoEnv with chat := fun _ => .reject ⟨"Connection error."⟩ }
          "Tokyo?").1.filter Event.isChat = [.chat (firstRequest "Tokyo?")]) ∧
      (∃ text url, template (.str "Tokyo") = .ok text ∧
        lookupAnswered
          { tokyoEnv with
            chat := rejectingChat (callMessage tokyoCall) ⟨"Connection error."⟩ }
          (.str "Tokyo") (.str "celsius") url
          tokyoRecord ∧
        processUserInput
            { tokyoEnv with
              chat := rejectingChat (callMessage tokyoCall) ⟨"Connection error."⟩ }
            "Tokyo?" =
          ([.log .blue "Thinking...",
            .chat (firstRequest "Tokyo?"),
            .logMessage (callMessage tokyoCall),
            .log .blue ("Fetching weather for " ++ text ++ "..."),
            .fetch url,
            .logToolData tokyoRecord
              tokyoCall,
            .chat (secondRequest "Tokyo?" (callMessage tokyoCall) tokyoCall
              tokyoRecord),
            .logError .red ("Error: " ++ "Connection error.")], .ok ())) ∧
      (askQuestion tokyoEnv ["Tokyo?", "exit"] =
          .question questionPrompt
            :: ((processUserInput tokyoEnv "Tokyo?").1 ++ askQuestion tokyoEnv ["exit"]) ∧
        ∃ more, askQuestion tokyoEnv ["exit"] = .question questionPrompt :: more) :=
  ⟨(turn_never_raises (chatEnv (callMessage (callWith ""))) "Tokyo?").2.1
      { choices := [{ message := callMessage (callWith "") }] } (callMessage (callWith "")) []
      (callWith "") [] ⟨"Unexpected end of JSON input"⟩ rfl rfl rfl rfl rfl,
    (turn_never_raises { tokyoEnv with chat := fun _ => .reject ⟨"Connection error."⟩ }
      "Tokyo?").2.2.1 ⟨"Connection error."⟩ rfl,
    (turn_never_raises
      { tokyoEnv with chat := rejectingChat (callMessage tokyoCall) ⟨"Connection error."⟩ }
      "Tokyo?").2.2.2.1 (callMessage tokyoCall) tokyoCall (.str "Tokyo") (.str "celsius")
      tokyoRecord
      ⟨"Connection error."⟩ ⟨_, [], [], _, rfl, rfl, rfl, rfl, rfl, rfl⟩ rfl rfl rfl,
    (turn_never_raises tokyoEnv "Tokyo?").2.2.2.2 ["exit"] (by decide)⟩

/-- C8, as stated, fails for arguments without location: they destructure to the
location `undefined`, the request is sent for the query "undefined", and as the endpoint
answers ok with a complete body the lookup returns a success record; so it does for the
empty location, requested with an empty query; the turn then calls the model a second
time. -/
theorem lookup_without_location_succeeds :
    sampleParse "\x7b\x7d" = .ok (.obj []) ∧
      destructureArgs (.obj []) = .ok (.undefined, .str "celsius") ∧
      usableLocation .undefined = false ∧
      getWeather tokyoEnv .undefined (.str "celsius") =
        ([.fetch
            "https://api.openweathermap.org/data/2.5/weather?q=undefined&appid=k&units=metric"],
          .ok (.obj [
            ("location", .str "Tokyo, JP"),
            ("temperature", .str "18\u00c2\u00b0C"),
            ("description", .str "clear sky"),
            ("feels_like", .str "17\u00c2\u00b0C"),
            ("humidity", .str "60%"),
            ("wind_speed", .str "3 m/s")])) ∧
      (getWeather tokyoEnv (.str "") (.str "celsius")).1 =
        [.fetch "https://api.openweathermap.org/data/2.5/weather?q=&appid=k&units=metric"] ∧
      (getWeather tokyoEnv (.str "") (.str "celsius")).2 =
        (getWeather tokyoEnv .undefined (.str "celsius")).2 ∧
      ((processUserInput (chatEnv (callMessage (callWith "\x7b\x7d"))) "Weather?").1.filter
        Event.isChat).length = 2 :=
  ⟨rfl, rfl, rfl, rfl, rfl, rfl, rfl⟩

/-- C8, amended. For every get_weather tool call whose parsed arguments destructure to a
missing, non-string or empty location, nothing crashes: every turn completes and the
lookup for that location returns a record. The location is not validated. The record is
an error record unless the lookup is answered, that is, unless the API key is set, the
location converts to a string and the weather endpoint, requested for that string
("undefined" for a missing location, the empty string for an empty one), answers ok with
a body from which a record can be built; an answered lookup makes that one request and
returns the success record built from the body. When the location does not convert to a
string, the lookup makes no request, and a turn with these arguments ends with an error
line before making the lookup. -/
theorem lookup_unvalidated (env : Env) (args location unit : JSVal) :
    destructureArgs args = .ok (location, unit) → usableLocation location = false →
      (∀ input, (processUserInput env input).2 = .ok ()) ∧
      ((∃ m, (getWeather env location unit).2 = .ok (.obj [("error", .str m)])) ∨
        ∃ url w, lookupAnswered env location unit url w) ∧
      (∀ url w, lookupAnswered env location unit url w →
        getWeather env location unit = ([.fetch url], .ok w) ∧ isSuccessRecord w) ∧
      (location = .undefined → encodeURIComponent location = .ok "undefined") ∧
      (location = .str "" → encodeURIComponent location = .ok "") ∧
      (∀ e, template location = .error e →
        (getWeather env location unit).1.filter Event.isFetch = [] ∧
          (∃ m, (getWeather env location unit).2 = .ok (.obj [("error", .str m)])) ∧
          ∀ input message toolCall,
            requestsLookup env input message toolCall location unit →
            processUserInput env input =
              ([.log .blue "Thinking...", .chat (firstRequest input), .logMessage message,
                .logError .red ("Error: " ++ e.message)], .ok ())) := by
  intro _ _
  refine ⟨processUserInput_completes env, ?_, ?_, ?_, ?_, ?_⟩
  · rcases getWeather_outcome env location unit with ⟨events, m, hg, -⟩ | ⟨url, w, ha, -⟩
    · exact Or.inl ⟨m, by rw [hg]⟩
    · exact Or.inr ⟨url, w, ha⟩
  · intro url w ha
    refine ⟨?_, answered_is_success env location unit url w ha⟩
    obtain ⟨apiKey, q, response, data, hkey, hne, hq, rfl, hf, hok, hj, hrec⟩ := ha
    exact getWeather_of_record env location unit apiKey q response data w hkey hne hq hf hok
      hj hrec
  · rintro rfl
    rfl
  · rintro rfl
    rfl
  · intro e ht
    have hq : encodeURIComponent location = .error e := by simp [encodeURIComponent, ht]
    have hthrow : ∃ e0,
        getWeatherBody env location (withDefault unit (.str "celsius")) = ([], .error e0) := by
      cases hkey : env.WEATHER_API_KEY with
      | none => exact ⟨_, body_no_key env location _ (Or.inl hkey)⟩
      | some apiKey =>
        by_cases hne : apiKey = ""
        · exact ⟨_, body_no_key env location _ (Or.inr (hne ▸ hkey))⟩
        · exact ⟨_, body_unencodable env location _ apiKey e hkey hne hq⟩
    obtain ⟨e0, hb⟩ := hthrow
    have hg := getWeather_of_throw env location unit [] e0 hb
    refine ⟨by rw [hg]; rfl, ⟨e0.message, by rw [hg]⟩, ?_⟩
    intro input message toolCall hreq
    obtain ⟨response, others, more, args0, hchat, hc, htc, hn, hp, hd⟩ := hreq
    have hbody : processBody env input =
        ([.chat (firstRequest input), .logMessage message], .error e) := by
      rw [body_tool_call env input response message others toolCall more hchat hc htc hn,
        branch_unconvertible env input message toolCall args0 location unit e hp hd ht]
    rw [turn_of_throw env input _ e hbody]
    rfl

theorem lookup_unvalidated_witness :
    ((∀ input, (processUserInput tokyoEnv input).2 = .ok ()) ∧
      ((∃ m, (getWeather tokyoEnv .undefined (.str "celsius")).2
          = .ok (.obj [("error", .str m)])) ∨
        ∃ url w, lookupAnswered tokyoEnv .undefined (.str "celsius") url w) ∧
      (∀ url w, lookupAnswered tokyoEnv .undefined (.str "celsius") url w →
        getWeather tokyoEnv .undefined (.str "celsius") = ([.fetch url], .ok w) ∧
          isSuccessRecord w) ∧
      (JSVal.undefined = .undefined → encodeURIComponent .undefined = .ok "undefined") ∧
      (JSVal.undefined = .str "" → encodeURIComponent .undefined = .ok "") ∧
      (∀ e, template .undefined = .error e →
        (getWeather tokyoEnv .undefined (.str "celsius")).1.filter Event.isFetch = [] ∧
          (∃ m, (getWeather tokyoEnv .undefined (.str "celsius")).2
            = .ok (.obj [("error", .str m)])) ∧
          ∀ input message toolCall,
            requestsLookup tokyoEnv input message toolCall .undefined (.str "celsius") →
            processUserInput tokyoEnv input =
              ([.log .blue "Thinking...", .chat (firstRequest input), .logMessage message,
                .logError .red ("Error: " ++ e.message)], .ok ()))) ∧
      (getWeather tokyoEnv unconvertible (.str "celsius")).1.filter Event.isFetch = [] :=
  ⟨lookup_unvalidated tokyoEnv (.obj []) .undefined (.str "celsius") rfl rfl,
    ((lookup_unvalidated tokyoEnv (.obj [("location", unconvertible)]) unconvertible
      (.str "celsius") rfl rfl).2.2.2.2.2
      ⟨"Cannot convert object to primitive value"⟩ rfl).1⟩

/-! ## Lower-casing -/

theorem char_eq_of_toNat {a b : Char} (h : a.toNat = b.toNat) : a = b := by
  rw [← Char.ofNat_toNat a, ← Char.ofNat_toNat b, h]

theorem toLower_of_not_upper (a : Char) (h : ¬ (65 ≤ a.toNat ∧ a.toNat ≤ 90)) :
    Char.toLower a = a := by
  unfold Char.toLower
  simp only [ge_iff_le, h, if_false]

theorem toNat_toLower_of_upper (a : Char) (h1 : 65 ≤ a.toNat) (h2 : a.toNat ≤ 90) :
    (Char.toLower a).toNat = a.toNat + 32 := by
  unfold Char.toLower
  simp only [ge_iff_le, h1, h2, and_self, if_true]
  generalize a.toNat = n at h1 h2
  interval_cases n <;> rfl

theorem toLower_eq_letter (a lower upper : Char) (hl : lower.toNat = upper.toNat + 32)
    (h1 : 65 ≤ upper.toNat) (h2 : upper.toNat ≤ 90) :
    Char.toLower a = lower ↔ a = lower ∨ a = upper := by
  constructor
  · intro h
    by_cases hup : 65 ≤ a.toNat ∧ a.toNat ≤ 90
    · right
      apply char_eq_of_toNat
      have h3 := toNat_toLower_of_upper a hup.1 hup.2
      rw [h, hl] at h3
      omega
    · left
      rw [← toLower_of_not_upper a hup, h]
  · rintro (h | h)
    · subst h
      exact toLower_of_not_upper a (by omega)
    · subst h
      apply char_eq_of_toNat
      rw [toNat_toLower_of_upper a h1 h2, hl]

/-- A line lowers to the word exit exactly when it is that word in some mix of cases. -/
theorem toLowerCase_eq_exit_iff (q : String) :
    toLowerCase q = "exit" ↔
      ∃ a b c d, q = String.mk [a, b, c, d] ∧ (a = 'e' ∨ a = 'E') ∧ (b = 'x' ∨ b = 'X') ∧
        (c = 'i' ∨ c = 'I') ∧ (d = 't' ∨ d = 'T') := by
  have he := fun a => toLower_eq_letter a 'e' 'E' (by decide) (by decide) (by decide)
  have hx := fun a => toLower_eq_letter a 'x' 'X' (by decide) (by decide) (by decide)
  have hi := fun a => toLower_eq_letter a 'i' 'I' (by decide) (by decide) (by decide)
  have ht := fun a => toLower_eq_letter a 't' 'T' (by decide) (by decide) (by decide)
  obtain ⟨cs⟩ := q
  constructor
  · intro h
    have h2 : cs.map Char.toLower = ['e', 'x', 'i', 't'] := by
      have := congrArg String.data h
      simpa [toLowerCase] using this
    rcases cs with _ | ⟨a, _ | ⟨b, _ | ⟨c, _ | ⟨d, _ | ⟨x, rest⟩⟩⟩⟩⟩ <;>
      simp only [List.map, List.cons.injEq, and_true, reduceCtorEq, and_false] at h2
    exact ⟨a, b, c, d, rfl, (he a).mp h2.1, (hx b).mp h2.2.1, (hi c).mp h2.2.2.1,
      (ht d).mp h2.2.2.2⟩
  · rintro ⟨a, b, c, d, hq, ha, hb, hc, hd⟩
    rw [hq]
    have h3 : toLowerCase (String.mk [a, b, c, d]) =
        String.mk [Char.toLower a, Char.toLower b, Char.toLower c, Char.toLower d] := rfl
    rw [h3, (he a).mpr ha, (hx b).mpr hb, (hi c).mpr hc, (ht d).mpr hd]

/-! ## Claims on `askQuestion` -/

/-- C10. A line lowers to "exit" exactly when it is that word in some mix of cases, with
nothing before or after. For every line entered: if its lower-casing equals "exit" (as
for "exit", "Exit" and "EXIT"), the loop prints the farewell, closes the interface, and does nothing more:
no turn and no further question. For every other line (as for "exit " and " exit") the
loop runs the turn of that line once and then, the turn having completed, asks the next
question. -/
theorem loop_exits_or_runs_turn (env : Env) (query : String) (rest : List String) :
    (toLowerCase query = "exit" ↔
        ∃ a b c d, query = String.mk [a, b, c, d] ∧ (a = 'e' ∨ a = 'E') ∧
          (b = 'x' ∨ b = 'X') ∧ (c = 'i' ∨ c = 'I') ∧ (d = 't' ∨ d = 'T')) ∧
      (toLowerCase query = "exit" →
        askQuestion env (query :: rest) =
          [.question questionPrompt, .log .yellow "\nGoodbye! \u00f0\u0178\u2018\u2039\n", .close]) ∧
      (toLowerCase query ≠ "exit" →
        askQuestion env (query :: rest) =
            .question questionPrompt
              :: ((processUserInput env query).1 ++ askQuestion env rest) ∧
          ∃ more, askQuestion env rest = .question questionPrompt :: more) ∧
      toLowerCase "exit" = "exit" ∧ toLowerCase "Exit" = "exit" ∧
      toLowerCase "EXIT" = "exit" ∧ toLowerCase "exit " ≠ "exit" ∧
      toLowerCase " exit" ≠ "exit" := by
  refine ⟨toLowerCase_eq_exit_iff query, ?_, ?_, by decide, by decide, by decide, by decide,
    by decide⟩
  · intro h
    simp [askQuestion, h]
  · intro h
    have h2 := processUserInput_completes env query
    rcases hp : processUserInput env query with ⟨events, r⟩
    rw [hp] at h2
    simp only at h2
    subst h2
    refine ⟨by simp [askQuestion, h, hp], ?_⟩
    cases rest with
    | nil => exact ⟨[], rfl⟩
    | cons next others => exact ⟨_, rfl⟩

theorem loop_exits_or_runs_turn_witness :
    askQuestion tokyoEnv ["EXIT", "Tokyo?"] =
        [.question questionPrompt, .log .yellow "\nGoodbye! \u00f0\u0178\u2018\u2039\n", .close] ∧
      askQuestion tokyoEnv ["exit ", "exit"] =
        .question questionPrompt
          :: ((processUserInput tokyoEnv "exit ").1 ++ askQuestion tokyoEnv ["exit"]) :=
  ⟨(loop_exits_or_runs_turn tokyoEnv "EXIT" ["Tokyo?"]).2.1 (by decide),
    ((loop_exits_or_runs_turn tokyoEnv "exit " ["exit"]).2.2.1 (by decide)).1⟩

end WeatherAgent
